import Mathlib

set_option maxRecDepth 100000

/-!
Verification development for the billions-agent-js-sdk identity core: the
challenge generator, the detached-token codec and verifier, the owner-auth
freshness check, the ownership state tracker, and the attestation client.
Each TypeScript function of the repository is shallowly embedded as an
executable Lean definition; external collaborators (the KMS signing backend,
the JWS library, the RPC provider and the contracts) are modelled as explicit
oracle parameters or as faithful models of their documented wire behaviour.
-/

/- ===================== Challenge generator (tools-helper.ts) ============= -/

/-- Model of JavaScript `byte.toString(2)`: the binary digit string of a
natural number, most significant digit first, with `0` rendered as "0".
Implemented with a fuel argument equal to the number itself, which is always
sufficient since `n` has at most `n` binary digits for `n > 0`. -/
def natToBinCore : Nat → Nat → List Char → List Char
  | 0, _, acc => acc
  | fuel + 1, n, acc =>
    if n = 0 then acc
    else natToBinCore fuel (n / 2) ((if n % 2 = 1 then ('1') else ('0')) :: acc)

/-- JavaScript `n.toString(2)` for a natural number. -/
def natToBin (n : Nat) : List Char :=
  if n = 0 then [('0')] else natToBinCore n n []

/-- JavaScript `String.prototype.padStart(len, "0")`. -/
def padStartZeros (len : Nat) (s : List Char) : List Char :=
  List.replicate (len - s.length) ('0') ++ s

/-- `byteToBinary` from src/utils/encoding.ts: `byte.toString(2).padStart(8, "0")`. -/
def byteToBinary (b : Nat) : List Char :=
  padStartZeros 8 (natToBin b)

/-- `bytesToBinary` from src/utils/encoding.ts: concatenation of the per byte
binary strings. -/
def bytesToBinary (bytes : List Nat) : List Char :=
  (bytes.map byteToBinary).flatten

/-- JavaScript `parseInt(s, 2)` on a string of binary digits. -/
def parseBin (s : List Char) : Nat :=
  s.foldl (fun acc c => acc * 2 + (if c = '1' then 1 else 0)) 0

/-- `bytesToInteger` from src/utils/encoding.ts: `parseInt(bytesToBinary(bytes), 2)`. -/
def bytesToInteger (bytes : List Nat) : Nat :=
  parseBin (bytesToBinary bytes)

/-- The mask applied to the most significant byte in `generateChallenge`:
`bytes[0] &= (1 << shift) - 1` when `shift` is nonzero. -/
def maskByte (shift b : Nat) : Nat :=
  if shift ≠ 0 then b &&& ((1 <<< shift) - 1) else b

/-- The rejection-sampling loop of `generateChallenge`
(src/agentkit/func-utils/tools-helper.ts, lines 54-60). Each iteration draws
one byte from the entropy stream (the byte buffer has
`Math.ceil(bitLength / 8) = 1` byte for the 120-value range used there),
masks its high bits, converts with `bytesToInteger`, and redraws while the
value is at least `range`. Returns `none` when the finite draw list is
exhausted before a value is accepted. -/
def challengeLoop (range shift : Nat) : List Nat → Option Nat
  | [] => none
  | b :: rest =>
    let masked := maskByte shift b
    let result := bytesToInteger [masked]
    if result ≥ range then challengeLoop range shift rest else some result

/-- `generateChallenge` from src/agentkit/func-utils/tools-helper.ts
(lines 41-63), with the current Unix time `now` and the entropy source made
explicit as a list of drawn bytes. -/
def generateChallenge (now : Nat) (draws : List Nat) : Option Nat :=
  let windowSize := 60
  let lo := now - windowSize
  let hi := now + windowSize
  let range := hi - lo
  let bitLength := (natToBin (range - 1)).length
  let shift := bitLength % 8
  (challengeLoop range shift draws).map (fun result => lo + result)

/- ===================== JavaScript runtime value model ==================== -/

/-- A decoded JSON field value as it exists at runtime in the JavaScript
verifiers: a number, a string, or null/undefined. -/
inductive JVal where
  | jnum : Int → JVal
  | jstr : String → JVal
  | jnull : JVal
deriving DecidableEq

/-- JavaScript truthiness of a decoded field value: `0`, the empty string and
null/undefined are falsy. -/
def JVal.truthy : JVal → Bool
  | .jnum n => n != 0
  | .jstr s => s != ""
  | .jnull => false

/-- JavaScript `.toString()` on a decoded field value. -/
def JVal.jsToString : JVal → String
  | .jnum n => toString n
  | .jstr s => s
  | .jnull => ("null")

/-- JavaScript `value + k` for an integer literal `k`: numeric addition on
numbers, string concatenation on strings. -/
def JVal.jsAddInt : JVal → Int → JVal
  | .jnum n, k => .jnum (n + k)
  | .jstr s, k => .jstr (s ++ toString k)
  | .jnull, _ => .jnull

/-- JavaScript `value < k` for an integer `k`: numeric comparison, with a
string coerced to a number first and NaN comparisons yielding false. -/
def JVal.jsLtInt : JVal → Int → Bool
  | .jnum n, m => decide (n < m)
  | .jstr s, m =>
    match s.toInt? with
    | some k => decide (k < m)
    | none => false
  | .jnull, _ => false

/-- The decoded body of a signed token, as consumed by the verifiers
(`BasicMessage` with the `challenge` and `artifacts` extensions). -/
structure DecodedMsg where
  fromField : String
  challenge : JVal
  artifacts : Option String
deriving DecidableEq

/- ===================== Byte, hex and JSON text encodings ================= -/

/-- The lowercase hex digit of a value below 16, as used by `bytesToHex`:
code point 48 is the digit zero and code point 87 + 10 is the letter a. -/
def hexDigitChar (n : Nat) : Char :=
  if n < 10 then Char.ofNat (48 + n)
  else if n < 16 then Char.ofNat (87 + n)
  else ('0')

/-- Two lowercase hex digits of one byte. -/
def byteHex (b : Nat) : List Char :=
  [hexDigitChar (b / 16 % 16), hexDigitChar (b % 16)]

/-- Models `bytesToHex` from the SDK: the lowercase hex string of a byte
sequence. -/
def bytesToHexStr (bytes : List Nat) : String :=
  String.mk ((bytes.map byteHex).flatten)

/-- Models `byteEncoder.encode` (a TextEncoder) at code-point granularity:
every string handled by the token layer is ASCII, where code points and UTF-8
bytes coincide. -/
def encodeBytes (s : String) : List Nat :=
  s.data.map Char.toNat

/-- Models `byteDecoder.decode`: bytes back to a string, at code-point
granularity. -/
def decodeBytes (l : List Nat) : String :=
  String.mk (l.map Char.ofNat)

/-- The escape `JSON.stringify` applies to one character inside a string
literal. -/
def escapeChar (c : Char) : List Char :=
  if c = '"' then ['\\', '"']
  else if c = '\\' then ['\\', '\\']
  else if c = '\n' then ['\\', 'n']
  else if c = '\r' then ['\\', 'r']
  else if c = '\t' then ['\\', 't']
  else if c.toNat = 8 then ['\\', 'b']
  else if c.toNat = 12 then ['\\', 'f']
  else if c.toNat < 32 then
    ['\\', 'u', '0', '0', hexDigitChar (c.toNat / 16), hexDigitChar (c.toNat % 16)]
  else [c]

/-- `JSON.stringify` escaping of a whole string. -/
def jsonEscape (s : String) : String :=
  String.mk ((s.data.map escapeChar).flatten)

/-- A JSON string literal as emitted by `JSON.stringify`. -/
def jsonStrLit (s : String) : String :=
  "\"" ++ jsonEscape s ++ "\""

/-- A character that needs no JSON escaping and is plain printable ASCII.
DIDs and addresses handled by the codec satisfy this. -/
def goodChar (c : Char) : Bool :=
  decide (32 ≤ c.toNat) && decide (c.toNat ≤ 126) &&
    decide (c ≠ '"') && decide (c ≠ '\\')

/-- All characters of the string are plain printable ASCII without JSON
escapes. -/
def goodStr (s : String) : Bool :=
  s.data.all goodChar

/- ===================== base64url and token framing ======================= -/

/-- Character of a sextet in the base64url alphabet: 26 capitals, 26
lowercase letters, 10 digits, then minus and underscore. -/
def b64Char (n : Nat) : Char :=
  if n < 26 then Char.ofNat (65 + n)
  else if n < 52 then Char.ofNat (71 + n)
  else if n < 62 then Char.ofNat (n - 4)
  else if n = 62 then ('-')
  else if n = 63 then ('_')
  else ('A')

/-- Sextet of a character (64 for characters outside the alphabet). -/
def b64Val (c : Char) : Nat :=
  if 65 ≤ c.toNat ∧ c.toNat ≤ 90 then c.toNat - 65
  else if 97 ≤ c.toNat ∧ c.toNat ≤ 122 then c.toNat - 71
  else if 48 ≤ c.toNat ∧ c.toNat ≤ 57 then c.toNat + 4
  else if c = '-' then 62
  else if c = '_' then 63
  else 64

/-- Models `bytesToBase64url`: unpadded base64url encoding of a byte list. -/
def b64Encode : List Nat → List Char
  | [] => []
  | [a] => [b64Char (a / 4), b64Char (a % 4 * 16)]
  | [a, b] => [b64Char (a / 4), b64Char (a % 4 * 16 + b / 16), b64Char (b % 16 * 4)]
  | a :: b :: c :: rest =>
    b64Char (a / 4) :: b64Char (a % 4 * 16 + b / 16) ::
      b64Char (b % 16 * 4 + c / 64) :: b64Char (c % 64) :: b64Encode rest

/-- base64url decoding, inverse of `b64Encode` on its image. -/
def b64Decode : List Char → List Nat
  | [] => []
  | [_] => []
  | [w, x] => [b64Val w * 4 + b64Val x / 16]
  | [w, x, y] =>
    [b64Val w * 4 + b64Val x / 16, b64Val x % 16 * 16 + b64Val y / 4]
  | w :: x :: y :: z :: rest =>
    (b64Val w * 4 + b64Val x / 16) :: (b64Val x % 16 * 16 + b64Val y / 4) ::
      (b64Val y % 4 * 64 + b64Val z) :: b64Decode rest

/-- base64url of the (code-point) bytes of a string. -/
def b64Str (s : String) : String :=
  String.mk (b64Encode (encodeBytes s))

/-- JavaScript `token.split(".")`, the split of the 3-segment compact JWS. -/
def splitDotAux : List Char → List Char → List (List Char)
  | [], cur => [cur.reverse]
  | c :: rest, cur =>
    if c = '.' then cur.reverse :: splitDotAux rest []
    else splitDotAux rest (c :: cur)

/-- `String.prototype.split(".")`. -/
def splitOnDot (s : String) : List String :=
  (splitDotAux s.data []).map String.mk

/-- The string contains no dot, so it is a single compact-JWS segment. -/
@[reducible]
def noDotStr (s : String) : Prop :=
  ('.') ∉ s.data

/- ===================== Payloads and the token codec ====================== -/

/-- A response payload minus its own `signedResponseToken` field
(`ResponseChallengePayload` from src/agentkit/types.ts), in the JSON key
order `did`, `ethAddress`, `challenge`, `response` used by every caller. -/
structure PayloadCore where
  did : String
  ethAddress : String
  challenge : Int
  response : String
deriving DecidableEq

/-- The full response payload, with the detached token field. -/
structure ResponsePayload extends PayloadCore where
  signedResponseToken : String
deriving DecidableEq

/-- `JSON.stringify` of the payload minus its token field, byte for byte. -/
def serializeCore (p : PayloadCore) : String :=
  "\x7b\"did\":" ++ jsonStrLit p.did ++
    ",\"ethAddress\":" ++ jsonStrLit p.ethAddress ++
    ",\"challenge\":" ++ toString p.challenge ++
    ",\"response\":" ++ jsonStrLit p.response ++ "\x7d"

/-- The artifacts hex string: `"0x" + bytesToHex(byteEncoder.encode(JSON.stringify(payload)))`. -/
def artifactsOf (p : PayloadCore) : String :=
  "0x" ++ bytesToHexStr (encodeBytes (serializeCore p))

/-- The signed body of a response-artifact token, with the JSON field order
`from`, `artifacts`, `challenge` and the challenge rendered as a string
(tools-helper.ts lines 131-136; the template is parsed and re-serialized, and
`from` is overwritten with the exact DID, so for parseable DIDs the result is
this compact serialization). -/
def serializeRespBody (fromStr artifacts challengeStr : String) : String :=
  "\x7b\"from\":" ++ jsonStrLit fromStr ++
    ",\"artifacts\":" ++ jsonStrLit artifacts ++
    ",\"challenge\":" ++ jsonStrLit challengeStr ++ "\x7d"

/-- The signing input of a compact JWS: `header + "." + base64url(body)`. -/
def signingInputOf (hdr body : String) : String :=
  hdr ++ "." ++ b64Str body

/-- Models `JWSPacker.pack` with algorithm ES256K-R: the compact token
`header + "." + base64url(body) + "." + signature`, where the signature is
produced by the KMS-backed signer over the signing input. The header segment
and the signer are abstract parameters of the model. -/
def jwsPack (hdr : String) (sign : String → String) (body : String) : String :=
  signingInputOf hdr body ++ "." ++ sign (signingInputOf hdr body)

/-- `packResponseArtifactsChallenge` from tools-helper.ts (lines 116-154):
pack the body over the payload minus its token field, then strip the middle
segment, producing the detached form `header + ".." + signature`. -/
def packResponseArtifactsChallenge (hdr : String) (sign : String → String)
    (core : PayloadCore) : String :=
  let body := serializeRespBody core.did (artifactsOf core) (toString core.challenge)
  let packed := jwsPack hdr sign body
  let parts := splitOnDot packed
  parts.getD 0 ("") ++ ".." ++ parts.getD 2 ("")

/-- The caller-side assignment `payload.signedResponseToken = packedToken`
performed after packing (e.g. wallet.ts line 283). -/
def attachToken (core : PayloadCore) (tok : String) : ResponsePayload :=
  { toPayloadCore := core, signedResponseToken := tok }

/- ===================== Token decoding and the verifiers ================== -/

/-- Scan a JSON string literal up to its closing quote (escape-free
fragment). -/
def scanStringLit : List Char → Option (List Char × List Char)
  | [] => none
  | c :: rest =>
    if c = '"' then some ([], rest)
    else (scanStringLit rest).map (fun p => (c :: p.1, p.2))

/-- Drop an expected literal prefix. -/
def stripPrefixChars (pre s : List Char) : Option (List Char) :=
  if s.take pre.length = pre then some (s.drop pre.length) else none

/-- Models `JSON.parse` on the escape-free response-token body shape
`\x7b"from":"...","artifacts":"...","challenge":"..."\x7d`. -/
def parseRespBody (s : String) : Option DecodedMsg := do
  let r0 ← stripPrefixChars ("\x7b\"from\":\"").data s.data
  let (fromChars, r1) ← scanStringLit r0
  let r2 ← stripPrefixChars (",\"artifacts\":\"").data r1
  let (artChars, r3) ← scanStringLit r2
  let r4 ← stripPrefixChars (",\"challenge\":\"").data r3
  let (chChars, r5) ← scanStringLit r4
  if r5 = ("\x7d").data then
    some ⟨String.mk fromChars, .jstr (String.mk chChars), some (String.mk artChars)⟩
  else none

/-- Models `decodeAuthToken` from src/utils/encoding.ts: unpack the compact
token with `JWSPacker.unpack`, checking the recoverable signature over
`header + "." + body` against the DID document built from the given address,
then return the parsed body. The signature recovery function of the external
ES256K-R scheme is an abstract parameter. -/
def modelDecodeAuthToken (recover : String → String → Option String)
    (token : String) (_did address : String) : Except String DecodedMsg :=
  match splitOnDot token with
  | [h, b, s] =>
    match recover s (h ++ "." ++ b) with
    | some addr =>
      if addr = address then
        match parseRespBody (decodeBytes (b64Decode b.data)) with
        | some msg => .ok msg
        | none => .error ("invalid token payload")
      else .error ("signature verification failed")
    | none => .error ("signature verification failed")
  | _ => .error ("invalid token format")

def missingFromMsg : String :=
  "Missing required field: from in decoded payload"

def missingChallengeMsg : String :=
  "Missing required field: challenge in decoded payload"

def challengeExpiredMsg : String :=
  "Challenge is expired"

def challengeMismatchMsg : String :=
  "Challenge doesnt match"

def artifactsMismatchMsg : String :=
  "Artifacts doesnt match"

/-- The reconstruction of the full compact JWS inside `verifyAgentResponse`
(src/utils/encoding.ts lines 51-70): take the header and signature segments
of the detached token and re-insert the base64url of the rebuilt body. -/
def fullJwsOf (p : ResponsePayload) : String :=
  let parts := splitOnDot p.signedResponseToken
  parts.getD 0 ("") ++ "." ++
    b64Str (serializeRespBody p.did (artifactsOf p.toPayloadCore) (toString p.challenge)) ++
    "." ++ parts.getD 2 ("")

/-- The field, challenge and artifact checks of `verifyAgentResponse`
(src/utils/encoding.ts lines 76-93) applied to the decoded payload. -/
def verifyDecodedResponse (decoded : DecodedMsg) (p : ResponsePayload) :
    Except String Unit :=
  if decoded.fromField = "" then .error missingFromMsg
  else if decoded.challenge.truthy = false then .error missingChallengeMsg
  else if decoded.challenge.jsToString ≠ toString p.challenge then
    .error challengeMismatchMsg
  else if decoded.artifacts ≠ some (artifactsOf p.toPayloadCore) then
    .error artifactsMismatchMsg
  else .ok ()

/-- `verifyAgentResponse` from src/utils/encoding.ts (lines 48-94),
parameterized by the decoding function (`decodeAuthToken`, whose signature
check lives in the external JWS library). -/
def verifyAgentResponse
    (decode : String → String → String → Except String DecodedMsg)
    (p : ResponsePayload) : Except String Unit :=
  match decode (fullJwsOf p) p.did p.ethAddress with
  | .error e => .error e
  | .ok decoded => verifyDecodedResponse decoded p

/-- The field and freshness checks of `checkOwnerAuthToken`
(tools-helper.ts lines 208-221), applied to the decoded payload: required
fields are tested for truthiness, then the token expires when
`decoded.challenge + 300 < now`. -/
def checkDecodedOwnerAuth (decoded : DecodedMsg) (now : Int) : Except String Unit :=
  if decoded.fromField = "" then .error missingFromMsg
  else if decoded.challenge.truthy = false then .error missingChallengeMsg
  else if (decoded.challenge.jsAddInt 300).jsLtInt now then .error challengeExpiredMsg
  else .ok ()

/-- `checkOwnerAuthToken` from tools-helper.ts (lines 199-222), parameterized
by the decoding function. -/
def checkOwnerAuthToken
    (decode : String → String → String → Except String DecodedMsg)
    (signedToken did ethAddress : String) (now : Int) : Except String Unit :=
  match decode signedToken did ethAddress with
  | .error e => .error e
  | .ok decoded => checkDecodedOwnerAuth decoded now

/- ===================== Wallet operations and the tracker ================= -/

/-- The blockchain section of the runtime `Config` (src/agentkit/types.ts). -/
structure MBlockchainConfig where
  rpcUrl : String
  blockExplorerUrl : String
  reviewSchemaId : Option String
deriving DecidableEq

/-- The runtime `Config` fields the identity provider reads and writes,
including the three ownership-state tracker fields. The seed is reduced to
its truthiness. -/
structure AgentConfig where
  ownerId : Nat
  ownerAddress : String
  agentDomain : String
  txDidAuthAttestation : Option String
  txOwnershipAttestationFromAgent : Option String
  txOwnershipAttestationFromOwner : Option String
  blockchainConfig : Option MBlockchainConfig
  hasSeed : Bool
deriving DecidableEq

/-- The result of `getKeyInfoFromKMS`: key handle, address, DID and its
numeric id, provided by the KMS/wallet oracles. -/
structure MKeyInfo where
  keyAlias : String
  ethAddress : String
  didString : String
  idNum : Nat
deriving DecidableEq

/-- The `rpcUrl` read through the optional chain `config.blockchainConfig?.rpcUrl`,
empty when the config is absent. -/
def rpcUrlOf (cfg : AgentConfig) : String :=
  match cfg.blockchainConfig with
  | some bc => bc.rpcUrl
  | none => ("")

/-- The signed body of `packDIDChallenge` (tools-helper.ts line 88): JSON
field order `from`, `challenge`, with the challenge rendered as a string. -/
def serializeDidChallengeBody (did : String) (challenge : Int) : String :=
  "\x7b\"from\":" ++ jsonStrLit did ++
    ",\"challenge\":" ++ jsonStrLit (toString challenge) ++ "\x7d"

/- The informational response templates are modelled as short constants: no
claim depends on their contents. -/

def genKeysResponseText : String :=
  "Successfully generate Ethereum address and public key."

def proveDidResponseText : String :=
  "Decentralized Identifier (DID) successfully generated for my Ethereum-based identity."

def proveOwnerResponseText : String :=
  "Ownership attestation successfully sent with my Ethereum-based identity."

def setOwnershipResponseText : String :=
  "Ownership attestation successfully verified from owner and I sent my ownership attestation."

def proveReputationResponseText : String :=
  "Reputation successfully proved from review attestations on Billions Attestation Registry."

def insufficientBalanceDidMsg (addr : String) : String :=
  "Insufficient balance in agent Ethereum address " ++ addr ++
    " to send DID Auth attestation transaction. Please fund the address with testnet ETH."

def insufficientBalanceOwnershipMsg (addr : String) : String :=
  "Insufficient balance in agent Ethereum address " ++ addr ++
    " to send ownership attestation transaction. Please fund the address with testnet ETH."

def agentIdMismatchMsg (got : String) (expected : Nat) : String :=
  "AgentId " ++ got ++ " does not match the derived Ethereum Identity with id "
    ++ toString expected

def ownerIdMismatchMsg (got : String) (expected : Nat) : String :=
  "OwnerId " ++ got ++ " does not match the configured ownerId " ++ toString expected

/- --------------------------- generateKeys -------------------------------- -/

/-- Oracle results consumed by one `generateKeys` call: the decoded owner-auth
token (the external JWS unpack), the key provider lookup, the existing key
list, the derived key info, public key, address and balance. -/
structure GenKeysEnv where
  ownerAuthDecoded : Except String DecodedMsg
  keyProviderFound : Bool
  existingKeys : List String
  keyInfo : MKeyInfo
  publicKey : String
  ethAddress : String
  balance : Nat

/-- Result of `generateKeys`: the updated config, whether a fresh key pair
was created, and the outcome. -/
structure GenKeysResult where
  cfg : AgentConfig
  keyCreated : Bool
  outcome : Except String ResponsePayload

/-- `generateKeys` from src/agentkit/blockchain/wallet.ts (lines 192-286):
verify the owner-auth token, resolve or create the key (reusing the last
existing key when any exist, requiring a seed otherwise), then reset all
three tracker fields (lines 245-247) and build the signed response payload. -/
def generateKeys (hdr : String) (sign : String → String) (cfg : AgentConfig)
    (env : GenKeysEnv) (now challenge : Int) : GenKeysResult :=
  match env.ownerAuthDecoded with
  | .error e => ⟨cfg, false, .error e⟩
  | .ok decoded =>
    match checkDecodedOwnerAuth decoded now with
    | .error e => ⟨cfg, false, .error e⟩
    | .ok _ =>
      if env.keyProviderFound = false then
        ⟨cfg, false, .error ("keyProvider not found for the configured key type")⟩
      else
        let keyExists : Bool := env.existingKeys.length != 0
        if keyExists = false ∧ cfg.hasSeed = false then
          ⟨cfg, false, .error ("Seed is required to generate new key")⟩
        else
          let cfg2 := { cfg with
            txOwnershipAttestationFromAgent := none
            txOwnershipAttestationFromOwner := none
            txDidAuthAttestation := none }
          let core : PayloadCore :=
            { did := env.keyInfo.didString
              ethAddress := env.ethAddress
              challenge := challenge
              response := genKeysResponseText }
          ⟨cfg2, !keyExists,
            .ok (attachToken core (packResponseArtifactsChallenge hdr sign core))⟩

/- --------------------------- proveDid ------------------------------------ -/

/-- Oracle results consumed by one `proveDid` call. -/
structure ProveDidEnv where
  keyInfo : MKeyInfo
  balance1 : Nat
  sendDidAuth : Except String String
  balance2 : Nat

/-- Result of `proveDid`: the updated config, whether the balance was read
for the attestation branch, whether `sendDidAuthAttestation` was invoked,
and the outcome. -/
structure ProveDidResult where
  cfg : AgentConfig
  balanceChecked : Bool
  attestationSent : Bool
  outcome : Except String ResponsePayload

/-- `proveDid` from src/agentkit/blockchain/wallet.ts (lines 301-417): sign
the DID challenge, and only when a blockchain config with an rpcUrl is
present, the address is truthy and `txDidAuthAttestation` is absent, check
the balance (failing on zero), submit the DID-auth attestation and record its
transaction hash; finally build the signed response payload. -/
def proveDid (hdr : String) (sign : String → String) (cfg : AgentConfig)
    (env : ProveDidEnv) (challenge : Int) : ProveDidResult :=
  let ki := env.keyInfo
  let _signedDidAuthToken := jwsPack hdr sign (serializeDidChallengeBody ki.didString challenge)
  let core : PayloadCore :=
    { did := ki.didString
      ethAddress := ki.ethAddress
      challenge := challenge
      response := proveDidResponseText }
  if cfg.blockchainConfig.isSome ∧ rpcUrlOf cfg ≠ "" ∧ ki.ethAddress ≠ "" ∧
      cfg.txDidAuthAttestation = none then
    if env.balance1 = 0 then
      ⟨cfg, true, false, .error (insufficientBalanceDidMsg ki.ethAddress)⟩
    else
      match env.sendDidAuth with
      | .error e => ⟨cfg, true, true, .error e⟩
      | .ok txh =>
        let cfg2 := { cfg with txDidAuthAttestation := some txh }
        ⟨cfg2, true, true,
          .ok (attachToken core (packResponseArtifactsChallenge hdr sign core))⟩
  else
    ⟨cfg, false, false,
      .ok (attachToken core (packResponseArtifactsChallenge hdr sign core))⟩

/- --------------------------- proveOwner ---------------------------------- -/

/-- Oracle results consumed by one `proveOwner` call. -/
structure ProveOwnerEnv where
  keyInfo : MKeyInfo
  balance : Nat
  sendOwnership : Except String String

/-- Result of `proveOwner`. -/
structure ProveOwnerResult where
  cfg : AgentConfig
  attestationSent : Bool
  outcome : Except String ResponsePayload

/-- `proveOwner` from src/agentkit/blockchain/wallet.ts (lines 432-542):
requires the blockchain config, rpcUrl and address; when
`txOwnershipAttestationFromAgent` is absent, checks the balance and submits
the agent's ownership attestation, recording its transaction hash. -/
def proveOwner (hdr : String) (sign : String → String) (cfg : AgentConfig)
    (env : ProveOwnerEnv) (challenge : Int) : ProveOwnerResult :=
  let ki := env.keyInfo
  let core : PayloadCore :=
    { did := ki.didString
      ethAddress := ki.ethAddress
      challenge := challenge
      response := proveOwnerResponseText }
  if cfg.blockchainConfig.isNone ∨ rpcUrlOf cfg = "" ∨ ki.ethAddress = "" then
    ⟨cfg, false, .error ("Missing blockchain config")⟩
  else
    match cfg.txOwnershipAttestationFromAgent with
    | some _ =>
      ⟨cfg, false,
        .ok (attachToken core (packResponseArtifactsChallenge hdr sign core))⟩
    | none =>
      if env.balance = 0 then
        ⟨cfg, false, .error (insufficientBalanceOwnershipMsg ki.ethAddress)⟩
      else
        match env.sendOwnership with
        | .error e => ⟨cfg, true, .error e⟩
        | .ok txh =>
          let cfg2 := { cfg with txOwnershipAttestationFromAgent := some txh }
          ⟨cfg2, true,
            .ok (attachToken core (packResponseArtifactsChallenge hdr sign core))⟩

/- --------------------------- setOwnership -------------------------------- -/

/-- An ownership attestation as returned by `getOwnershipAttestationFromOwner`. -/
structure MOwnAtt where
  agentId : String
  agentAddress : String
  ownerId : String
deriving DecidableEq

/-- Oracle results consumed by one `setOwnership` call. -/
structure SetOwnershipEnv where
  keyInfo : MKeyInfo
  fetched : Except String MOwnAtt

/-- Result of `setOwnership`. -/
structure SetOwnershipResult where
  cfg : AgentConfig
  outcome : Except String ResponsePayload

/-- `setOwnership` from src/agentkit/blockchain/wallet.ts (lines 557-642):
requires the blockchain config and a truthy `txHashAttestation`; fetches the
owner's attestation, then (line 581) records `txOwnershipAttestationFromOwner`
BEFORE validating the attestation fields, the agent id and the owner id. -/
def setOwnership (hdr : String) (sign : String → String) (cfg : AgentConfig)
    (env : SetOwnershipEnv) (txHashAttestation : Option String)
    (challenge : Int) : SetOwnershipResult :=
  let ki := env.keyInfo
  match cfg.blockchainConfig, txHashAttestation with
  | some _, some txh =>
    if txh = "" then
      ⟨cfg, .error ("Missing blockchain config or txHashAttestation")⟩
    else
      match env.fetched with
      | .error e => ⟨cfg, .error e⟩
      | .ok att =>
        let cfg2 := { cfg with txOwnershipAttestationFromOwner := some txh }
        if att.agentId = "" ∨ att.agentAddress = "" ∨ att.ownerId = "" then
          ⟨cfg2, .error ("Missing required fields to verify ownership attestation.")⟩
        else if att.agentId ≠ toString ki.idNum then
          ⟨cfg2, .error (agentIdMismatchMsg att.agentId ki.idNum)⟩
        else if att.ownerId ≠ toString cfg.ownerId then
          ⟨cfg2, .error (ownerIdMismatchMsg att.ownerId cfg.ownerId)⟩
        else
          let core : PayloadCore :=
            { did := ki.didString
              ethAddress := ki.ethAddress
              challenge := challenge
              response := setOwnershipResponseText }
          ⟨cfg2, .ok (attachToken core (packResponseArtifactsChallenge hdr sign core))⟩
  | _, _ => ⟨cfg, .error ("Missing blockchain config or txHashAttestation")⟩

/- --------------------------- proveReputation ----------------------------- -/

/-- Oracle results consumed by one `proveReputation` call. -/
structure ProveRepEnv where
  keyInfo : MKeyInfo
  reviewInfo : Except String (Nat × Nat)

/-- Result of `proveReputation`. -/
structure ProveRepResult where
  cfg : AgentConfig
  outcome : Except String ResponsePayload

/-- `proveReputation` from src/agentkit/blockchain/wallet.ts (lines 657-720):
requires a truthy `reviewSchemaId`, fetches the review statistics and builds
the signed response payload; it never touches the tracker fields. -/
def proveReputation (hdr : String) (sign : String → String) (cfg : AgentConfig)
    (env : ProveRepEnv) (challenge : Int) : ProveRepResult :=
  let ki := env.keyInfo
  let schemaId := match cfg.blockchainConfig with
    | some bc => bc.reviewSchemaId
    | none => none
  if schemaId = none ∨ schemaId = some ("") then
    ⟨cfg, .error ("Missing reviewSchemaId in blockchain config")⟩
  else
    match env.reviewInfo with
    | .error e => ⟨cfg, .error e⟩
    | .ok _ =>
      let core : PayloadCore :=
        { did := ki.didString
          ethAddress := ki.ethAddress
          challenge := challenge
          response := proveReputationResponseText }
      ⟨cfg, .ok (attachToken core (packResponseArtifactsChallenge hdr sign core))⟩

/- ===================== Attestation client (blockchain helpers) =========== -/

/-- `maxGasLimit` from the blockchain helpers (unnamed module, line 19). -/
def maxGasLimit : Nat := 10000000

/-- A transaction log with its indexed topics. -/
structure MLog where
  topics : List String
deriving DecidableEq

/-- A transaction receipt as returned by the wallet adapter. -/
structure MReceipt where
  hash : String
  logs : List MLog
deriving DecidableEq

/-- A transaction request as assembled by the helpers. -/
structure MTxRequest where
  toAddr : String
  callData : String
  gasLimit : Option Nat
deriving DecidableEq

/-- The authentication proof submitted to the auth verifier. -/
structure MAuthResponse where
  authMethod : String
  proof : String
deriving DecidableEq

/-- `ethers.AbiCoder.defaultAbiCoder().encode(["uint256"], [n])`: one
32-byte big-endian word in hex. -/
def abiEncodeUint256 (n : Nat) : String :=
  "0x" ++ String.mk (padStartZeros 64 (Nat.toDigits 16 n))

/-- Result of the private `sendTransaction` helper: the final request (with
the gas limit the helper set), whether the wallet submission was invoked,
and the outcome. -/
structure SendTxResult where
  request : MTxRequest
  sendCalled : Bool
  outcome : Except String (String × MReceipt)

/-- `sendTransaction` from the blockchain helpers (unnamed module, lines
162-182): try `wallet.estimateGas`; if it throws, fall back to the fixed
`maxGasLimit`; set `request.gasLimit` and submit, failing only when no
receipt comes back. The wallet estimate and receipt are oracle parameters. -/
def sendTransaction (estimate : Except String Nat) (receipt : Option MReceipt)
    (request : MTxRequest) : SendTxResult :=
  match receipt with
  | none =>
    ⟨{ request with gasLimit := some (match estimate with
        | .ok g => g
        | .error _ => maxGasLimit) }, true, .error ("No transaction created")⟩
  | some r =>
    ⟨{ request with gasLimit := some (match estimate with
        | .ok g => g
        | .error _ => maxGasLimit) }, true, .ok (r.hash, r)⟩

/-- The identity-mismatch message of `authenticateToAttestationRegistry`. -/
def idMismatchMsg (got expected : Nat) : String :=
  "Authenticated user ID " ++ toString got ++ " does not match the agent ID "
    ++ toString expected ++ ". Please ensure the agent is using the correct Ethereum address."

/-- Oracle results consumed by one `authenticateToAttestationRegistry` call:
the two `getIdByAddress` reads, the `authMethodExists` call, and the wallet
estimate/receipt used by the inner `sendTransaction`. -/
structure AuthRegEnv where
  idByAddress1 : Nat
  authMethodKnown : Except String Bool
  estimate : Except String Nat
  receipt : Option MReceipt
  idByAddress2 : Nat

/-- Result of `authenticateToAttestationRegistry`: the outcome and the
authentication proof submitted on-chain, when one was. -/
structure AuthRegResult where
  outcome : Except String Nat
  submitted : Option MAuthResponse

/-- `authenticateToAttestationRegistry` from the blockchain helpers (unnamed
module, lines 236-322): read the registry's address-to-id mapping; when it is
nonzero, succeed only if it equals the expected agent id; when it is zero,
check the registry recognizes the "ethIdentity" method, submit the proof
`abiEncode(uint256, agentId)` with a preset `maxGasLimit`, re-read the
mapping and fail if it is still zero; every failure of the inner block is
wrapped in "Could not authenticate: ". The contract call encoding is an
abstract parameter. -/
def authenticateToAttestationRegistry (encodeCall : MAuthResponse → String)
    (authVerifierAddress : String) (agentId : Nat) (agentAddress : String)
    (env : AuthRegEnv) : AuthRegResult :=
  if env.idByAddress1 = 0 then
    match env.authMethodKnown with
    | .error e => ⟨.error ("Could not authenticate: " ++ e), none⟩
    | .ok false =>
      ⟨.error ("Could not authenticate: ethIdentity auth method not found"), none⟩
    | .ok true =>
      match (sendTransaction env.estimate env.receipt
          { toAddr := authVerifierAddress
            callData := encodeCall ⟨("ethIdentity"), abiEncodeUint256 agentId⟩
            gasLimit := some maxGasLimit }).outcome with
      | .error e =>
        ⟨.error ("Could not authenticate: " ++ e),
          some ⟨("ethIdentity"), abiEncodeUint256 agentId⟩⟩
      | .ok _ =>
        if env.idByAddress2 = 0 then
          ⟨.error ("Could not authenticate: Authentication failed - user ID is still 0 after authentication"),
            some ⟨("ethIdentity"), abiEncodeUint256 agentId⟩⟩
        else
          ⟨.ok env.idByAddress2, some ⟨("ethIdentity"), abiEncodeUint256 agentId⟩⟩
  else
    if env.idByAddress1 ≠ agentId then
      ⟨.error (idMismatchMsg env.idByAddress1 agentId), none⟩
    else
      ⟨.ok env.idByAddress1, none⟩

/- ===================== concrete model instances ========================== -/

/-- A concrete instance of the abstract ES256K-R signer used to witness the
round-trip theorem: the signature is the hex dump of the signing input. -/
def modelSignFn (m : String) : String :=
  bytesToHexStr (encodeBytes m)

/-- The matching recovery function: recovering a `modelSignFn` signature over
its own signing input yields the agent address. -/
def modelRecoverFn (sig input : String) : Option String :=
  if sig = bytesToHexStr (encodeBytes input) then some ("0xAgentAddr") else none

/-- A decoding oracle that returns a fixed decoded payload, used to witness
theorems quantified over the external JWS unpacking. -/
def constDecodeFn (d : DecodedMsg) : String → String → String → Except String DecodedMsg :=
  fun _ _ _ => .ok d

/-- A concrete response payload core used by witnesses. -/
def sampleCore : PayloadCore :=
  { did := ("did:iden3:billions:test:2abc")
    ethAddress := ("0xAgentAddr")
    challenge := 1234
    response := ("ok") }

/-- Concrete key info used by witnesses: derived numeric id 7. -/
def sampleKeyInfo : MKeyInfo :=
  { keyAlias := ("k1")
    ethAddress := ("0xAgentAddr")
    didString := ("did:iden3:billions:test:2abc")
    idNum := 7 }

/-- Concrete blockchain config used by witnesses. -/
def sampleBC : MBlockchainConfig :=
  { rpcUrl := ("http://rpc")
    blockExplorerUrl := ("http://explorer")
    reviewSchemaId := some ("0xschema") }

/-- A config whose three tracker fields are all set. -/
def cfgWithTrackers : AgentConfig :=
  { ownerId := 42
    ownerAddress := ("0xOwner")
    agentDomain := ("agent.example")
    txDidAuthAttestation := some ("0xa")
    txOwnershipAttestationFromAgent := some ("0xb")
    txOwnershipAttestationFromOwner := some ("0xold")
    blockchainConfig := some sampleBC
    hasSeed := true }

/-- A `generateKeys` oracle environment in which a key already exists, so no
fresh key pair is created, and the owner-auth token is fresh at time 1000. -/
def genKeysEnvReuse : GenKeysEnv :=
  { ownerAuthDecoded := .ok ⟨("did:owner"), JVal.jnum 900, none⟩
    keyProviderFound := true
    existingKeys := [("k1")]
    keyInfo := sampleKeyInfo
    publicKey := ("0xpub")
    ethAddress := ("0xAgentAddr")
    balance := 5 }

/-- A `proveDid` oracle environment with funds and a succeeding submission. -/
def proveDidEnvOk : ProveDidEnv :=
  { keyInfo := sampleKeyInfo
    balance1 := 5
    sendDidAuth := .ok ("0xdidtx")
    balance2 := 4 }

/-- A `proveOwner` oracle environment with funds and a succeeding submission. -/
def proveOwnerEnvOk : ProveOwnerEnv :=
  { keyInfo := sampleKeyInfo
    balance := 5
    sendOwnership := .ok ("0xowntx") }

/-- A `setOwnership` oracle environment whose fetched attestation carries
`agentId = "999"`, different from the derived id 7. -/
def setOwnEnvMismatch : SetOwnershipEnv :=
  { keyInfo := sampleKeyInfo
    fetched := .ok ⟨("999"), ("0xAgentAddr"), ("42")⟩ }

/-- A `proveReputation` oracle environment with a fetched review summary. -/
def proveRepEnvOk : ProveRepEnv :=
  { keyInfo := sampleKeyInfo
    reviewInfo := .ok (450, 3) }

/-- Like `cfgWithTrackers` but with no DID-auth attestation recorded yet. -/
def cfgNoDid : AgentConfig :=
  { cfgWithTrackers with txDidAuthAttestation := none }

/-- A concrete contract-call encoder used by witnesses. -/
def sampleEncodeCall : MAuthResponse → String :=
  fun r => r.proof

/-- A concrete receipt used by witnesses. -/
def sampleReceipt : MReceipt :=
  { hash := ("0xauthtx"), logs := [{ topics := [("t0"), ("t1")] }] }

/-- Registry oracle: already mapped to 9, expected 7. -/
def authEnvMismatch : AuthRegEnv :=
  { idByAddress1 := 9, authMethodKnown := .ok true, estimate := .ok 21000
    receipt := some sampleReceipt, idByAddress2 := 9 }

/-- Registry oracle: already mapped to the expected id 7. -/
def authEnvMatch : AuthRegEnv :=
  { idByAddress1 := 7, authMethodKnown := .ok true, estimate := .ok 21000
    receipt := some sampleReceipt, idByAddress2 := 7 }

/-- Registry oracle: unmapped, and the registry lacks the ethIdentity method. -/
def authEnvNoMethod : AuthRegEnv :=
  { idByAddress1 := 0, authMethodKnown := .ok false, estimate := .ok 21000
    receipt := some sampleReceipt, idByAddress2 := 0 }

/-- Registry oracle: unmapped, method known, gas estimation failing, and the
second read yields 7. -/
def authEnvZeroOk : AuthRegEnv :=
  { idByAddress1 := 0, authMethodKnown := .ok true, estimate := .error ("rpc down")
    receipt := some sampleReceipt, idByAddress2 := 7 }

/-- Registry oracle: unmapped and still unmapped after the proof submission. -/
def authEnvStillZero : AuthRegEnv :=
  { idByAddress1 := 0, authMethodKnown := .ok true, estimate := .ok 21000
    receipt := some sampleReceipt, idByAddress2 := 0 }

/- ============================ THEOREMS =================================== -/

/-- For a single byte below 256, `bytesToInteger` is the identity. -/
theorem bytesToInteger_single (b : Nat) (hb : b < 256) : bytesToInteger [b] = b := by
  revert hb
  revert b
  decide

/-- Any value accepted by the rejection loop is below `range`. -/
theorem challengeLoop_lt (range shift : Nat) (draws : List Nat) (r : Nat)
    (h : challengeLoop range shift draws = some r) : r < range := by
  induction draws with
  | nil => simp [challengeLoop] at h
  | cons b rest ih =>
    simp only [challengeLoop] at h
    split at h
    · exact ih h
    · cases h
      omega

/-- For the 120-value range, masking keeps every already-accepted value. -/
theorem maskByte_small (r : Nat) (hr : r < 128) : maskByte 7 r = r := by
  revert hr
  revert r
  decide

/-- For any realistic clock value, `generateChallenge` runs the rejection loop
with `range = 120` and `shift = 7`, offsetting accepted samples by `now - 60`. -/
theorem generateChallenge_eq (now : Nat) (hnow : 60 ≤ now) (draws : List Nat) :
    generateChallenge now draws
      = (challengeLoop 120 7 draws).map (fun r => (now - 60) + r) := by
  simp only [generateChallenge]
  have h1 : now + 60 - (now - 60) = 120 := by omega
  rw [h1]
  have h2 : (natToBin (120 - 1)).length % 8 = 7 := by decide
  rw [h2]

/-- C1 counterexample: the claim says every one of the 121 integers in
`[now - 60, now + 60]` is a possible return value; at `now = 1000` the value
`now + 60 = 1060` is never returned, for any entropy stream, because
`range = max - min = 120` excludes the upper endpoint. -/
theorem c1_counterexample :
    ¬ ∃ draws : List Nat, generateChallenge 1000 draws = some 1060 := by
  rintro ⟨draws, h⟩
  rw [generateChallenge_eq 1000 (by omega)] at h
  rcases Option.map_eq_some'.mp h with ⟨r, hr, hv⟩
  have := challengeLoop_lt 120 7 draws r hr
  omega

/-- C1 (amended): at any Unix time `now`, `generateChallenge` returns a value
in `[now - 60, now + 59]` (120 values, the upper endpoint `now + 60` is
excluded); every one of those 120 values is attainable; and the masked
one-byte sample is uniform over them: each accepted offset has exactly 2 of
the 256 possible byte values mapping to it, with samples in `[120, 128)`
redrawn. -/
theorem c1_amended (now : Nat) (hnow : 60 ≤ now) :
    (∀ draws v, generateChallenge now draws = some v →
      now - 60 ≤ v ∧ v ≤ now + 59) ∧
    (∀ v, now - 60 ≤ v → v ≤ now + 59 →
      generateChallenge now [v - (now - 60)] = some v) ∧
    (∀ v, v < 120 →
      ((List.range 256).filter
        (fun b => challengeLoop 120 7 [b] = some v)).length = 2) := by
  refine ⟨?_, ?_, ?_⟩
  · intro draws v h
    rw [generateChallenge_eq now hnow] at h
    rcases Option.map_eq_some'.mp h with ⟨r, hr, hv⟩
    have := challengeLoop_lt 120 7 draws r hr
    omega
  · intro v h1 h2
    rw [generateChallenge_eq now hnow]
    have hlt : v - (now - 60) < 120 := by omega
    simp only [challengeLoop]
    rw [maskByte_small _ (by omega)]
    rw [bytesToInteger_single _ (by omega)]
    simp only [ge_iff_le]
    rw [if_neg (by omega)]
    simp only [Option.map_some']
    congr 1
    omega
  · decide

/- ------------------- string and encoding helper lemmas ------------------- -/

theorem strMk_data (s : String) : String.mk s.data = s := rfl

theorem data_strMk (l : List Char) : (String.mk l).data = l := rfl

theorem b64Val_b64Char (n : Nat) (h : n < 64) : b64Val (b64Char n) = n := by
  revert h
  revert n
  decide

theorem b64Char_ne_dot (n : Nat) : b64Char n ≠ '.' := by
  rcases Nat.lt_or_ge n 64 with h | h
  · revert h
    revert n
    decide
  · unfold b64Char
    rw [if_neg (by omega), if_neg (by omega), if_neg (by omega),
      if_neg (by omega), if_neg (by omega)]
    decide

theorem b64Encode_noDot (l : List Nat) : ('.') ∉ b64Encode l := by
  induction l using b64Encode.induct with
  | case1 => simp [b64Encode]
  | case2 a =>
    simp only [b64Encode, List.mem_cons, List.not_mem_nil, or_false]
    rintro (h | h) <;> exact absurd h.symm (b64Char_ne_dot _)
  | case3 a b =>
    simp only [b64Encode, List.mem_cons, List.not_mem_nil, or_false]
    rintro (h | h | h) <;> exact absurd h.symm (b64Char_ne_dot _)
  | case4 a b c rest ih =>
    simp only [b64Encode, List.mem_cons]
    rintro (h | h | h | h | h)
    · exact absurd h.symm (b64Char_ne_dot _)
    · exact absurd h.symm (b64Char_ne_dot _)
    · exact absurd h.symm (b64Char_ne_dot _)
    · exact absurd h.symm (b64Char_ne_dot _)
    · exact ih h

theorem b64_roundtrip (l : List Nat) (hl : ∀ b ∈ l, b < 256) :
    b64Decode (b64Encode l) = l := by
  induction l using b64Encode.induct with
  | case1 => rfl
  | case2 a =>
    have ha : a < 256 := hl a (by simp)
    simp only [b64Encode, b64Decode]
    rw [b64Val_b64Char _ (by omega), b64Val_b64Char _ (by omega)]
    congr 1
    omega
  | case3 a b =>
    have ha : a < 256 := hl a (by simp)
    have hb : b < 256 := hl b (by simp)
    simp only [b64Encode, b64Decode]
    rw [b64Val_b64Char _ (by omega), b64Val_b64Char _ (by omega),
      b64Val_b64Char _ (by omega)]
    congr 1
    · omega
    · congr 1
      omega
  | case4 a b c rest ih =>
    have ha : a < 256 := hl a (by simp)
    have hb : b < 256 := hl b (by simp)
    have hc : c < 256 := hl c (by simp)
    have hrest : ∀ x ∈ rest, x < 256 := by
      intro x hx
      exact hl x (by simp [hx])
    simp only [b64Encode]
    have hshape : ∀ l1 : List Char, b64Decode
        (b64Char (a / 4) :: b64Char (a % 4 * 16 + b / 16) ::
          b64Char (b % 16 * 4 + c / 64) :: b64Char (c % 64) :: l1)
        = (b64Val (b64Char (a / 4)) * 4 + b64Val (b64Char (a % 4 * 16 + b / 16)) / 16) ::
          (b64Val (b64Char (a % 4 * 16 + b / 16)) % 16 * 16 +
            b64Val (b64Char (b % 16 * 4 + c / 64)) / 4) ::
          (b64Val (b64Char (b % 16 * 4 + c / 64)) % 4 * 64 +
            b64Val (b64Char (c % 64))) :: b64Decode l1 := by
      intro l1
      rfl
    rw [hshape, ih hrest]
    rw [b64Val_b64Char _ (by omega), b64Val_b64Char _ (by omega),
      b64Val_b64Char _ (by omega), b64Val_b64Char _ (by omega)]
    congr 1
    · omega
    · congr 1
      · omega
      · congr 1
        omega

theorem splitDotAux_noDot (xs cur : List Char) (h : ('.') ∉ xs) :
    splitDotAux xs cur = [cur.reverse ++ xs] := by
  induction xs generalizing cur with
  | nil => simp [splitDotAux]
  | cons c rest ih =>
    have hc : c ≠ '.' := fun hc => h (by simp [hc])
    have hrest : ('.') ∉ rest := fun hr => h (by simp [hr])
    simp only [splitDotAux, if_neg hc]
    rw [ih _ hrest]
    simp

theorem splitDotAux_append (xs rest cur : List Char) (h : ('.') ∉ xs) :
    splitDotAux (xs ++ ('.') :: rest) cur
      = (cur.reverse ++ xs) :: splitDotAux rest [] := by
  induction xs generalizing cur with
  | nil => simp [splitDotAux]
  | cons c xs0 ih =>
    have hc : c ≠ '.' := fun hc => h (by simp [hc])
    have hxs0 : ('.') ∉ xs0 := fun hr => h (by simp [hr])
    simp only [List.cons_append, splitDotAux, if_neg hc, List.append_eq]
    rw [ih _ hxs0]
    simp

theorem splitOnDot_three (h b s : String)
    (hh : noDotStr h) (hb : noDotStr b) (hs : noDotStr s) :
    splitOnDot (h ++ "." ++ b ++ "." ++ s) = [h, b, s] := by
  unfold splitOnDot
  have hdata : (h ++ "." ++ b ++ "." ++ s).data
      = h.data ++ ('.') :: (b.data ++ ('.') :: s.data) := by
    simp [String.data_append]
  rw [hdata]
  rw [splitDotAux_append _ _ _ hh]
  rw [splitDotAux_append _ _ _ hb]
  rw [splitDotAux_noDot _ _ hs]
  simp [strMk_data]

theorem goodChar_spec (ch : Char) (h : goodChar ch = true) :
    32 ≤ ch.toNat ∧ ch.toNat ≤ 126 ∧ ch ≠ '"' ∧ ch ≠ '\\' := by
  unfold goodChar at h
  simp only [Bool.and_eq_true, decide_eq_true_eq] at h
  exact ⟨h.1.1.1, h.1.1.2, h.1.2, h.2⟩

theorem escapeChar_good (ch : Char) (h : goodChar ch = true) :
    escapeChar ch = [ch] := by
  obtain ⟨h1, h2, h3, h4⟩ := goodChar_spec ch h
  have h5 : ch ≠ '\n' := by
    rintro rfl
    revert h1
    decide
  have h6 : ch ≠ '\r' := by
    rintro rfl
    revert h1
    decide
  have h7 : ch ≠ '\t' := by
    rintro rfl
    revert h1
    decide
  unfold escapeChar
  rw [if_neg h3, if_neg h4, if_neg h5, if_neg h6, if_neg h7,
    if_neg (by omega), if_neg (by omega), if_neg (by omega)]

theorem escList_good (l : List Char) (h : l.all goodChar = true) :
    (l.map escapeChar).flatten = l := by
  induction l with
  | nil => rfl
  | cons ch rest ih =>
    simp only [List.all_cons, Bool.and_eq_true] at h
    simp only [List.map_cons, List.flatten_cons, escapeChar_good ch h.1, ih h.2]
    rfl

theorem jsonEscape_good (s : String) (h : goodStr s = true) : jsonEscape s = s := by
  unfold jsonEscape
  rw [escList_good _ h]

theorem goodStr_no_quote (s : String) (h : goodStr s = true) : ('"') ∉ s.data := by
  intro hmem
  have := List.all_eq_true.mp h _ hmem
  exact absurd ((goodChar_spec _ this).2.2.1) (by simp)

theorem goodStr_ascii (s : String) (h : goodStr s = true) :
    ∀ ch ∈ s.data, ch.toNat ≤ 126 := by
  intro ch hmem
  exact (goodChar_spec ch (List.all_eq_true.mp h _ hmem)).2.1

/- ------------------- decimal digit strings are well behaved -------------- -/

theorem digitChar_good (n : Nat) (h : n < 10) :
    goodChar (Nat.digitChar n) = true ∧ Nat.digitChar n ≠ '"' := by
  revert h
  revert n
  decide

theorem toDigitsCore_good (fuel : Nat) :
    ∀ (n : Nat) (ds : List Char), ds.all goodChar = true →
      (Nat.toDigitsCore 10 fuel n ds).all goodChar = true := by
  induction fuel with
  | zero =>
    intro n ds hds
    simpa [Nat.toDigitsCore] using hds
  | succ fuel ih =>
    intro n ds hds
    simp only [Nat.toDigitsCore]
    split
    · simp only [List.all_cons, Bool.and_eq_true]
      exact ⟨(digitChar_good _ (Nat.mod_lt n (by omega))).1, hds⟩
    · apply ih
      simp only [List.all_cons, Bool.and_eq_true]
      exact ⟨(digitChar_good _ (Nat.mod_lt n (by omega))).1, hds⟩

theorem toDigitsCore_len (fuel : Nat) :
    ∀ (n : Nat) (ds : List Char),
      ds.length ≤ (Nat.toDigitsCore 10 fuel n ds).length := by
  induction fuel with
  | zero =>
    intro n ds
    simp [Nat.toDigitsCore]
  | succ fuel ih =>
    intro n ds
    simp only [Nat.toDigitsCore]
    split
    · simp
    · calc ds.length ≤ (Nat.digitChar (n % 10) :: ds).length := by simp
        _ ≤ _ := ih _ _

theorem natRepr_data (n : Nat) : (Nat.repr n).data = Nat.toDigits 10 n := rfl

theorem natRepr_good (n : Nat) : goodStr (Nat.repr n) = true := by
  unfold goodStr
  rw [natRepr_data]
  unfold Nat.toDigits
  exact toDigitsCore_good _ _ _ rfl

theorem natRepr_ne_nil (n : Nat) : (Nat.repr n).data ≠ [] := by
  rw [natRepr_data]
  unfold Nat.toDigits
  simp only [Nat.toDigitsCore]
  split
  · simp
  · intro hcontra
    have := toDigitsCore_len n (n / 10) [Nat.digitChar (n % 10)]
    rw [hcontra] at this
    simp at this

theorem intToString_ofNat (m : Nat) : toString (Int.ofNat m) = Nat.repr m := rfl

theorem intToString_negSucc (m : Nat) :
    toString (Int.negSucc m) = "-" ++ Nat.repr (m + 1) := rfl

theorem intToString_good (i : Int) : goodStr (toString i) = true := by
  cases i with
  | ofNat m => exact natRepr_good m
  | negSucc m =>
    rw [intToString_negSucc]
    unfold goodStr
    rw [String.data_append]
    simp only [List.all_append, Bool.and_eq_true]
    exact ⟨by decide, natRepr_good (m + 1)⟩

theorem intToString_ne_empty (i : Int) : toString i ≠ "" := by
  cases i with
  | ofNat m =>
    rw [intToString_ofNat]
    intro hcontra
    exact natRepr_ne_nil m (congrArg String.data hcontra)
  | negSucc m =>
    rw [intToString_negSucc]
    intro hcontra
    have := congrArg String.data hcontra
    rw [String.data_append] at this
    simp at this

/- ------------------- hex strings are well behaved ------------------------ -/

theorem hexDigitChar_good (n : Nat) : goodChar (hexDigitChar n) = true := by
  rcases Nat.lt_or_ge n 16 with h | h
  · revert h
    revert n
    decide
  · unfold hexDigitChar
    rw [if_neg (by omega), if_neg (by omega)]
    decide

theorem bytesToHexStr_good (bytes : List Nat) :
    goodStr (bytesToHexStr bytes) = true := by
  unfold goodStr bytesToHexStr
  rw [data_strMk]
  induction bytes with
  | nil => rfl
  | cons b rest ih =>
    simp only [List.map_cons, List.flatten_cons, List.all_append, Bool.and_eq_true]
    refine ⟨?_, ih⟩
    simp only [byteHex, List.all_cons, List.all_nil, Bool.and_eq_true]
    exact ⟨hexDigitChar_good _, hexDigitChar_good _, trivial⟩

theorem artifactsOf_good (p : PayloadCore) : goodStr (artifactsOf p) = true := by
  unfold artifactsOf goodStr
  rw [String.data_append]
  simp only [List.all_append, Bool.and_eq_true]
  exact ⟨by decide, bytesToHexStr_good _⟩

/- ------------------- parser-inverse and byte lemmas ---------------------- -/

theorem take_len_append (l1 l2 : List Char) : (l1 ++ l2).take l1.length = l1 := by
  induction l1 with
  | nil => rfl
  | cons x xs ih => simp [ih]

theorem drop_len_append (l1 l2 : List Char) : (l1 ++ l2).drop l1.length = l2 := by
  induction l1 with
  | nil => rfl
  | cons x xs ih => simp [ih]

theorem stripPrefixChars_append (pre rest : List Char) :
    stripPrefixChars pre (pre ++ rest) = some rest := by
  unfold stripPrefixChars
  rw [take_len_append, drop_len_append, if_pos rfl]

theorem scanStringLit_append (f rest : List Char) (hf : ('"') ∉ f) :
    scanStringLit (f ++ ('"') :: rest) = some (f, rest) := by
  induction f with
  | nil => simp [scanStringLit]
  | cons ch f0 ih =>
    have hch : ch ≠ '"' := fun h => hf (by simp [h])
    have hf0 : ('"') ∉ f0 := fun h => hf (by simp [h])
    simp only [List.cons_append, scanStringLit, if_neg hch, List.append_eq,
      ih hf0, Option.map_some']

theorem encodeBytes_lt (s : String) (h : ∀ ch ∈ s.data, ch.toNat ≤ 126) :
    ∀ b ∈ encodeBytes s, b < 256 := by
  intro b hb
  unfold encodeBytes at hb
  rcases List.mem_map.mp hb with ⟨ch, hch, rfl⟩
  exact Nat.lt_of_le_of_lt (h ch hch) (by omega)

theorem decodeBytes_encodeBytes (s : String) : decodeBytes (encodeBytes s) = s := by
  unfold decodeBytes encodeBytes
  rw [List.map_map]
  have : (Char.ofNat ∘ Char.toNat) = id := by
    funext ch
    exact Char.ofNat_toNat ch
  rw [this, List.map_id]

theorem serializeRespBody_data (f a c : String)
    (hfe : jsonEscape f = f) (hae : jsonEscape a = a) (hce : jsonEscape c = c) :
    (serializeRespBody f a c).data
      = ("\x7b\"from\":\"").data ++ (f.data ++ ('"') ::
          ((",\"artifacts\":\"").data ++ (a.data ++ ('"') ::
            ((",\"challenge\":\"").data ++ (c.data ++ ('"') ::
              ("\x7d").data))))) := by
  unfold serializeRespBody jsonStrLit
  rw [hfe, hae, hce]
  simp [String.data_append]

theorem serializeRespBody_ascii (f a c : String)
    (hfg : goodStr f = true) (hag : goodStr a = true) (hcg : goodStr c = true)
    (hfe : jsonEscape f = f) (hae : jsonEscape a = a) (hce : jsonEscape c = c) :
    ∀ ch ∈ (serializeRespBody f a c).data, ch.toNat ≤ 126 := by
  intro ch hch
  rw [serializeRespBody_data f a c hfe hae hce] at hch
  have lit1 : ∀ x ∈ ("\x7b\"from\":\"").data, Char.toNat x ≤ 126 := by decide
  have lit2 : ∀ x ∈ (",\"artifacts\":\"").data, Char.toNat x ≤ 126 := by decide
  have lit3 : ∀ x ∈ (",\"challenge\":\"").data, Char.toNat x ≤ 126 := by decide
  have lit4 : ∀ x ∈ ("\x7d").data, Char.toNat x ≤ 126 := by decide
  rcases List.mem_append.mp hch with h | h
  · exact lit1 ch h
  rcases List.mem_append.mp h with h | h
  · exact goodStr_ascii f hfg ch h
  rcases List.mem_cons.mp h with h | h
  · subst h
    decide
  rcases List.mem_append.mp h with h | h
  · exact lit2 ch h
  rcases List.mem_append.mp h with h | h
  · exact goodStr_ascii a hag ch h
  rcases List.mem_cons.mp h with h | h
  · subst h
    decide
  rcases List.mem_append.mp h with h | h
  · exact lit3 ch h
  rcases List.mem_append.mp h with h | h
  · exact goodStr_ascii c hcg ch h
  rcases List.mem_cons.mp h with h | h
  · subst h
    decide
  exact lit4 ch h

theorem parseRespBody_serialize (f a c : String)
    (hfg : goodStr f = true) (hag : goodStr a = true) (hcg : goodStr c = true) :
    parseRespBody (serializeRespBody f a c)
      = some ⟨f, JVal.jstr c, some a⟩ := by
  have hfe := jsonEscape_good f hfg
  have hae := jsonEscape_good a hag
  have hce := jsonEscape_good c hcg
  unfold parseRespBody
  rw [serializeRespBody_data f a c hfe hae hce]
  rw [stripPrefixChars_append]
  simp only [Option.bind_eq_bind, Option.some_bind]
  rw [scanStringLit_append _ _ (goodStr_no_quote f hfg)]
  simp only [Option.some_bind]
  rw [stripPrefixChars_append]
  simp only [Option.some_bind]
  rw [scanStringLit_append _ _ (goodStr_no_quote a hag)]
  simp only [Option.some_bind]
  rw [stripPrefixChars_append]
  simp only [Option.some_bind]
  rw [scanStringLit_append _ _ (goodStr_no_quote c hcg)]
  simp only [Option.some_bind]
  simp

/- ------------------- token framing lemmas -------------------------------- -/

theorem strExt (a b : String) (h : a.data = b.data) : a = b := by
  cases a
  cases b
  cases h
  rfl

theorem noDot_b64Str (s : String) : noDotStr (b64Str s) := by
  unfold noDotStr b64Str
  rw [data_strMk]
  exact b64Encode_noDot _

theorem noDot_empty : noDotStr ("") := by
  unfold noDotStr
  intro h
  simp at h

theorem pack_detached (hdr : String) (sign : String → String) (core : PayloadCore)
    (hh : noDotStr hdr)
    (hsig : ∀ m, noDotStr (sign m)) :
    packResponseArtifactsChallenge hdr sign core
      = hdr ++ ".." ++
        sign (signingInputOf hdr
          (serializeRespBody core.did (artifactsOf core) (toString core.challenge))) := by
  simp only [packResponseArtifactsChallenge, jwsPack, signingInputOf]
  rw [splitOnDot_three hdr
    (b64Str (serializeRespBody core.did (artifactsOf core) (toString core.challenge)))
    (sign (hdr ++ "." ++
      b64Str (serializeRespBody core.did (artifactsOf core) (toString core.challenge))))
    hh (noDot_b64Str _) (hsig _)]
  rfl

theorem split_detached (hdr sig : String) (hh : noDotStr hdr) (hs : noDotStr sig) :
    splitOnDot (hdr ++ ".." ++ sig) = [hdr, "", sig] := by
  have heq : hdr ++ ".." ++ sig = hdr ++ "." ++ "" ++ "." ++ sig :=
    strExt _ _ (by simp [String.data_append])
  rw [heq]
  exact splitOnDot_three hdr ("") sig hh noDot_empty hs

theorem verifyAgentResponse_decoded
    (decode : String → String → String → Except String DecodedMsg)
    (p : ResponsePayload) (d : DecodedMsg)
    (hdec : decode (fullJwsOf p) p.did p.ethAddress = .ok d) :
    verifyAgentResponse decode p = verifyDecodedResponse d p := by
  unfold verifyAgentResponse
  rw [hdec]

theorem checkOwnerAuthToken_decoded
    (decode : String → String → String → Except String DecodedMsg)
    (tok did addr : String) (now : Int) (d : DecodedMsg)
    (hdec : decode tok did addr = .ok d) :
    checkOwnerAuthToken decode tok did addr now = checkDecodedOwnerAuth d now := by
  unfold checkOwnerAuthToken
  rw [hdec]

theorem modelDecode_three (recover : String → String → Option String)
    (h b s did addr : String)
    (hh : noDotStr h) (hb : noDotStr b) (hs : noDotStr s) :
    modelDecodeAuthToken recover (h ++ "." ++ b ++ "." ++ s) did addr
      = match recover s (h ++ "." ++ b) with
        | some a =>
          if a = addr then
            match parseRespBody (decodeBytes (b64Decode b.data)) with
            | some msg => .ok msg
            | none => .error ("invalid token payload")
          else .error ("signature verification failed")
        | none => .error ("signature verification failed") := by
  unfold modelDecodeAuthToken
  rw [splitOnDot_three h b s hh hb hs]

theorem fullJws_of_pack (hdr : String) (sign : String → String) (core : PayloadCore)
    (hh : noDotStr hdr)
    (hsig : ∀ m, noDotStr (sign m)) :
    fullJwsOf (attachToken core (packResponseArtifactsChallenge hdr sign core))
      = hdr ++ "." ++
          b64Str (serializeRespBody core.did (artifactsOf core) (toString core.challenge))
        ++ "." ++
          sign (hdr ++ "." ++
            b64Str (serializeRespBody core.did (artifactsOf core) (toString core.challenge))) := by
  simp only [fullJwsOf, attachToken]
  rw [pack_detached hdr sign core hh hsig]
  simp only [signingInputOf]
  rw [split_detached hdr _ hh (hsig _)]
  rfl

theorem decode_roundtrip (hdr : String) (sign : String → String)
    (recover : String → String → Option String) (core : PayloadCore)
    (hh : noDotStr hdr)
    (hsig : ∀ m, noDotStr (sign m))
    (hrec : ∀ m, recover (sign m) m = some core.ethAddress)
    (hdid : goodStr core.did = true) :
    modelDecodeAuthToken recover
      (fullJwsOf (attachToken core (packResponseArtifactsChallenge hdr sign core)))
      (attachToken core (packResponseArtifactsChallenge hdr sign core)).did
      (attachToken core (packResponseArtifactsChallenge hdr sign core)).ethAddress
      = .ok ⟨core.did, JVal.jstr (toString core.challenge), some (artifactsOf core)⟩ := by
  have hart : goodStr (artifactsOf core) = true := artifactsOf_good core
  have hch : goodStr (toString core.challenge) = true := intToString_good core.challenge
  have hascii : ∀ ch ∈
      (serializeRespBody core.did (artifactsOf core) (toString core.challenge)).data,
      ch.toNat ≤ 126 :=
    serializeRespBody_ascii _ _ _ hdid hart hch
      (jsonEscape_good _ hdid) (jsonEscape_good _ hart) (jsonEscape_good _ hch)
  have hb64 : b64Decode (b64Encode (encodeBytes
      (serializeRespBody core.did (artifactsOf core) (toString core.challenge))))
      = encodeBytes (serializeRespBody core.did (artifactsOf core) (toString core.challenge)) :=
    b64_roundtrip _ (encodeBytes_lt _ hascii)
  have hparse : parseRespBody
      (serializeRespBody core.did (artifactsOf core) (toString core.challenge))
      = some ⟨core.did, JVal.jstr (toString core.challenge), some (artifactsOf core)⟩ :=
    parseRespBody_serialize _ _ _ hdid hart hch
  rw [fullJws_of_pack hdr sign core hh hsig]
  rw [modelDecode_three recover hdr _ _ _ _ hh (noDot_b64Str _) (hsig _)]
  rw [hrec]
  simp only [b64Str, data_strMk, hb64, decodeBytes_encodeBytes, hparse, attachToken,
    if_true]

/-- C3: round-trip of the detached-token codec. For every response payload
and every signing key whose recoverable signatures resolve to the payload's
`ethAddress`, setting `signedResponseToken` to the output of
`packResponseArtifactsChallenge` on the payload minus its token field makes
`verifyAgentResponse` succeed, and the decoded body carries exactly the
recomputed artifacts hex string and the payload's challenge. -/
theorem c3_detached_roundtrip (hdr : String) (sign : String → String)
    (recover : String → String → Option String) (core : PayloadCore)
    (hh : noDotStr hdr)
    (hsig : ∀ m, noDotStr (sign m))
    (hrec : ∀ m, recover (sign m) m = some core.ethAddress)
    (hdid : goodStr core.did = true)
    (hdidne : core.did ≠ "") :
    verifyAgentResponse (modelDecodeAuthToken recover)
      (attachToken core (packResponseArtifactsChallenge hdr sign core)) = .ok () ∧
    modelDecodeAuthToken recover
      (fullJwsOf (attachToken core (packResponseArtifactsChallenge hdr sign core)))
      (attachToken core (packResponseArtifactsChallenge hdr sign core)).did
      (attachToken core (packResponseArtifactsChallenge hdr sign core)).ethAddress
      = .ok ⟨core.did, JVal.jstr (toString core.challenge), some (artifactsOf core)⟩ := by
  have hdec := decode_roundtrip hdr sign recover core hh hsig hrec hdid
  refine ⟨?_, hdec⟩
  rw [verifyAgentResponse_decoded _ _ _ hdec]
  unfold verifyDecodedResponse
  simp only [attachToken]
  rw [if_neg hdidne]
  have htr : (JVal.jstr (toString core.challenge)).truthy = true := by
    simp [JVal.truthy, intToString_ne_empty core.challenge]
  rw [if_neg (by simp [htr])]
  rw [if_neg (by simp [JVal.jsToString])]
  rw [if_neg (by simp)]

theorem hexDigitChar_ne_dot (n : Nat) : hexDigitChar n ≠ '.' := by
  rcases Nat.lt_or_ge n 16 with h | h
  · revert h
    revert n
    decide
  · unfold hexDigitChar
    rw [if_neg (by omega), if_neg (by omega)]
    decide

theorem bytesToHexStr_noDot (bytes : List Nat) : noDotStr (bytesToHexStr bytes) := by
  unfold noDotStr bytesToHexStr
  rw [data_strMk]
  intro hmem
  rcases List.mem_flatten.mp hmem with ⟨l, hl, hdot⟩
  rcases List.mem_map.mp hl with ⟨b, _, rfl⟩
  unfold byteHex at hdot
  rcases List.mem_cons.mp hdot with h | h
  · exact hexDigitChar_ne_dot _ h.symm
  rcases List.mem_cons.mp h with h | h
  · exact hexDigitChar_ne_dot _ h.symm
  · simp at h

theorem modelSignFn_noDot (m : String) : noDotStr (modelSignFn m) :=
  bytesToHexStr_noDot _

theorem modelRecoverFn_sign (m : String) :
    modelRecoverFn (modelSignFn m) m = some (sampleCore.ethAddress) := by
  unfold modelRecoverFn modelSignFn
  rw [if_pos rfl]
  rfl

/-- Witness for `c3_detached_roundtrip`, at a concrete payload and the
concrete model signature scheme. -/
theorem c3_detached_roundtrip_witness :
    verifyAgentResponse (modelDecodeAuthToken modelRecoverFn)
      (attachToken sampleCore
        (packResponseArtifactsChallenge ("hdrsegment") modelSignFn sampleCore)) = .ok () ∧
    modelDecodeAuthToken modelRecoverFn
      (fullJwsOf (attachToken sampleCore
        (packResponseArtifactsChallenge ("hdrsegment") modelSignFn sampleCore)))
      (attachToken sampleCore
        (packResponseArtifactsChallenge ("hdrsegment") modelSignFn sampleCore)).did
      (attachToken sampleCore
        (packResponseArtifactsChallenge ("hdrsegment") modelSignFn sampleCore)).ethAddress
      = .ok ⟨sampleCore.did, JVal.jstr (toString sampleCore.challenge),
          some (artifactsOf sampleCore)⟩ :=
  c3_detached_roundtrip ("hdrsegment") modelSignFn modelRecoverFn sampleCore
    (by decide) modelSignFn_noDot modelRecoverFn_sign (by decide) (by decide)

/- ------------------- C5, C9, C10: owner-auth verification ---------------- -/

/-- C5: owner-auth freshness. For every decoded owner-auth token whose
required fields are present (truthy), `checkOwnerAuthToken` succeeds exactly
when `challenge + 300 >= now`, and otherwise fails with the
challenge-expired error. -/
theorem c5_owner_auth_freshness
    (decode : String → String → String → Except String DecodedMsg)
    (tok did addr : String) (d : DecodedMsg) (now n : Int)
    (hdec : decode tok did addr = .ok d)
    (hfrom : d.fromField ≠ "")
    (hch : d.challenge = JVal.jnum n)
    (hn : n ≠ 0) :
    (checkOwnerAuthToken decode tok did addr now = .ok () ↔ n + 300 ≥ now) ∧
    (n + 300 < now →
      checkOwnerAuthToken decode tok did addr now = .error challengeExpiredMsg) := by
  rw [checkOwnerAuthToken_decoded _ _ _ _ _ _ hdec]
  unfold checkDecodedOwnerAuth
  rw [if_neg hfrom, hch]
  have htr : (JVal.jnum n).truthy = true := by
    simp [JVal.truthy, hn]
  rw [if_neg (by simp [htr])]
  simp only [JVal.jsAddInt, JVal.jsLtInt]
  by_cases hlt : n + 300 < now
  · rw [if_pos (by simpa using hlt)]
    constructor
    · constructor
      · intro h
        cases h
      · intro h
        omega
    · intro _
      rfl
  · rw [if_neg (by simpa using hlt)]
    constructor
    · constructor
      · intro _
        omega
      · intro _
        rfl
    · intro h
      omega

/-- Witness for `c5_owner_auth_freshness`: at `now = 1000`, a token with
`challenge = now - 299` verifies and a token with `challenge = now - 301`
fails with the challenge-expired error. -/
theorem c5_owner_auth_freshness_witness :
    checkOwnerAuthToken (constDecodeFn ⟨("did:owner"), JVal.jnum 701, none⟩)
      ("tok") ("did:owner") ("0xOwner") 1000 = .ok () ∧
    checkOwnerAuthToken (constDecodeFn ⟨("did:owner"), JVal.jnum 699, none⟩)
      ("tok") ("did:owner") ("0xOwner") 1000 = .error challengeExpiredMsg :=
  ⟨((c5_owner_auth_freshness (constDecodeFn ⟨("did:owner"), JVal.jnum 701, none⟩)
      ("tok") ("did:owner") ("0xOwner") ⟨("did:owner"), JVal.jnum 701, none⟩ 1000 701
      rfl (by decide) rfl (by decide)).1).mpr (by omega),
   (c5_owner_auth_freshness (constDecodeFn ⟨("did:owner"), JVal.jnum 699, none⟩)
      ("tok") ("did:owner") ("0xOwner") ⟨("did:owner"), JVal.jnum 699, none⟩ 1000 699
      rfl (by decide) rfl (by decide)).2 (by omega)⟩

/-- C9: the owner-auth freshness check has no upper bound on the challenge:
any decoded numeric challenge with `challenge + 300 >= now`, including
challenges arbitrarily far in the future, passes `checkOwnerAuthToken`. -/
theorem c9_no_upper_bound
    (decode : String → String → String → Except String DecodedMsg)
    (tok did addr : String) (d : DecodedMsg) (now n : Int)
    (hdec : decode tok did addr = .ok d)
    (hfrom : d.fromField ≠ "")
    (hch : d.challenge = JVal.jnum n)
    (hn : n ≠ 0)
    (hfresh : n + 300 ≥ now) :
    checkOwnerAuthToken decode tok did addr now = .ok () := by
  rw [checkOwnerAuthToken_decoded _ _ _ _ _ _ hdec]
  unfold checkDecodedOwnerAuth
  rw [if_neg hfrom, hch]
  have htr : (JVal.jnum n).truthy = true := by
    simp [JVal.truthy, hn]
  rw [if_neg (by simp [htr])]
  simp only [JVal.jsAddInt, JVal.jsLtInt]
  rw [if_neg (by simp only [decide_eq_true_eq]; omega)]

/-- Witness for `c9_no_upper_bound`: a challenge one billion seconds in the
future still verifies at `now = 1000`. -/
theorem c9_no_upper_bound_witness :
    checkOwnerAuthToken (constDecodeFn ⟨("did:owner"), JVal.jnum 1000000000, none⟩)
      ("tok") ("did:owner") ("0xOwner") 1000 = .ok () :=
  c9_no_upper_bound (constDecodeFn ⟨("did:owner"), JVal.jnum 1000000000, none⟩)
    ("tok") ("did:owner") ("0xOwner") ⟨("did:owner"), JVal.jnum 1000000000, none⟩
    1000 1000000000 rfl (by decide) rfl (by decide) (by omega)

/-- C10: the verifiers test required fields for JavaScript truthiness, not
presence. A decoded payload whose `challenge` field is the number 0 makes
both `checkOwnerAuthToken` and `verifyAgentResponse` fail with the
missing-challenge error, and one whose `from` field is the empty string makes
both fail with the missing-from error, even though the fields are present. -/
theorem c10_truthiness
    (decode : String → String → String → Except String DecodedMsg)
    (p : ResponsePayload) (tok did addr : String) (d : DecodedMsg) (now : Int)
    (hdec1 : decode tok did addr = .ok d)
    (hdec2 : decode (fullJwsOf p) p.did p.ethAddress = .ok d) :
    (d.fromField ≠ "" → d.challenge = JVal.jnum 0 →
      checkOwnerAuthToken decode tok did addr now = .error missingChallengeMsg ∧
      verifyAgentResponse decode p = .error missingChallengeMsg) ∧
    (d.fromField = "" →
      checkOwnerAuthToken decode tok did addr now = .error missingFromMsg ∧
      verifyAgentResponse decode p = .error missingFromMsg) := by
  constructor
  · intro hfrom hch
    have hzero : d.challenge.truthy = false := by
      rw [hch]
      simp [JVal.truthy]
    constructor
    · rw [checkOwnerAuthToken_decoded _ _ _ _ _ _ hdec1]
      unfold checkDecodedOwnerAuth
      rw [if_neg hfrom, if_pos (by simp [hzero])]
    · rw [verifyAgentResponse_decoded _ _ _ hdec2]
      unfold verifyDecodedResponse
      rw [if_neg hfrom, if_pos (by simp [hzero])]
  · intro hfrom
    constructor
    · rw [checkOwnerAuthToken_decoded _ _ _ _ _ _ hdec1]
      unfold checkDecodedOwnerAuth
      rw [if_pos hfrom]
    · rw [verifyAgentResponse_decoded _ _ _ hdec2]
      unfold verifyDecodedResponse
      rw [if_pos hfrom]

/-- Witness for `c10_truthiness`: concrete decoded payloads with a present
`challenge` equal to 0 and a present `from` equal to the empty string. -/
theorem c10_truthiness_witness :
    (checkOwnerAuthToken (constDecodeFn ⟨("did:owner"), JVal.jnum 0, none⟩)
      ("tok") ("did:owner") ("0xOwner") 1000 = .error missingChallengeMsg ∧
     verifyAgentResponse (constDecodeFn ⟨("did:owner"), JVal.jnum 0, none⟩)
      (attachToken sampleCore ("t..s")) = .error missingChallengeMsg) ∧
    (checkOwnerAuthToken (constDecodeFn ⟨(""), JVal.jnum 7, none⟩)
        ("tok") ("did:owner") ("0xOwner") 1000
        = .error missingFromMsg ∧
     verifyAgentResponse (constDecodeFn ⟨(""), JVal.jnum 7, none⟩)
      (attachToken sampleCore ("t..s")) = .error missingFromMsg) :=
  ⟨(c10_truthiness (constDecodeFn ⟨("did:owner"), JVal.jnum 0, none⟩)
      (attachToken sampleCore ("t..s")) ("tok") ("did:owner") ("0xOwner")
      ⟨("did:owner"), JVal.jnum 0, none⟩ 1000 rfl rfl).1 (by decide) rfl,
   (c10_truthiness (constDecodeFn ⟨(""), JVal.jnum 7, none⟩)
      (attachToken sampleCore ("t..s")) ("tok") ("did:owner") ("0xOwner")
      ⟨(""), JVal.jnum 7, none⟩ 1000 rfl rfl).2 rfl⟩

/-- Witness for `c1_amended` at `now = 1000`. -/
theorem c1_amended_witness :
    60 ≤ 1000 ∧
    ((∀ draws v, generateChallenge 1000 draws = some v →
      1000 - 60 ≤ v ∧ v ≤ 1000 + 59) ∧
    (∀ v, 1000 - 60 ≤ v → v ≤ 1000 + 59 →
      generateChallenge 1000 [v - (1000 - 60)] = some v) ∧
    (∀ v, v < 120 →
      ((List.range 256).filter
        (fun b => challengeLoop 120 7 [b] = some v)).length = 2)) :=
  ⟨by omega, c1_amended 1000 (by omega)⟩

/- ------------------- C4: proveDid idempotency ---------------------------- -/

/-- C4: when `txDidAuthAttestation` is already set, `proveDid` performs no
balance check, submits no attestation, and keeps the recorded hash. -/
theorem c4_proveDid_idempotent (hdr : String) (sign : String → String)
    (cfg : AgentConfig) (env : ProveDidEnv) (challenge : Int) (h : String)
    (hset : cfg.txDidAuthAttestation = some h) :
    (proveDid hdr sign cfg env challenge).balanceChecked = false ∧
    (proveDid hdr sign cfg env challenge).attestationSent = false ∧
    (proveDid hdr sign cfg env challenge).cfg.txDidAuthAttestation = some h := by
  unfold proveDid
  rw [if_neg (by simp [hset])]
  exact ⟨rfl, rfl, hset⟩

/-- Witness for `c4_proveDid_idempotent` at a concrete config whose
`txDidAuthAttestation` is already recorded. -/
theorem c4_proveDid_idempotent_witness :
    (proveDid ("hdrsegment") modelSignFn cfgWithTrackers proveDidEnvOk 5).balanceChecked
      = false ∧
    (proveDid ("hdrsegment") modelSignFn cfgWithTrackers proveDidEnvOk 5).attestationSent
      = false ∧
    (proveDid ("hdrsegment") modelSignFn cfgWithTrackers proveDidEnvOk 5).cfg.txDidAuthAttestation
      = some ("0xa") :=
  c4_proveDid_idempotent ("hdrsegment") modelSignFn cfgWithTrackers proveDidEnvOk 5
    ("0xa") rfl

/- ------------------- C2: setOwnership mismatch --------------------------- -/

/-- C2 counterexample: a `setOwnership` call whose fetched attestation has a
mismatched `agentId` fails with the ownership-mismatch error, but the tracker
field `txOwnershipAttestationFromOwner` is changed from its prior value to the
provided transaction hash, so the tracker is NOT left unchanged. -/
theorem c2_counterexample :
    cfgWithTrackers.txOwnershipAttestationFromOwner = some ("0xold") ∧
    (setOwnership ("hdrsegment") modelSignFn cfgWithTrackers setOwnEnvMismatch
        (some ("0xnew")) 5).outcome
      = .error (agentIdMismatchMsg ("999") 7) ∧
    (setOwnership ("hdrsegment") modelSignFn cfgWithTrackers setOwnEnvMismatch
        (some ("0xnew")) 5).cfg.txOwnershipAttestationFromOwner
      = some ("0xnew") :=
  ⟨rfl, rfl, rfl⟩

/-- C2 (amended): a `setOwnership` call whose fetched attestation carries a
mismatched `agentId` (or `ownerId`) fails with the corresponding
ownership-mismatch error and leaves `txDidAuthAttestation` and
`txOwnershipAttestationFromAgent` unchanged, but sets
`txOwnershipAttestationFromOwner` to the provided `txHashAttestation` before
validating, so that field is mutated even on failure. -/
theorem c2_amended (hdr : String) (sign : String → String) (cfg : AgentConfig)
    (env : SetOwnershipEnv) (txh : String) (challenge : Int) (att : MOwnAtt)
    (bc : MBlockchainConfig)
    (hsome : cfg.blockchainConfig = some bc)
    (hfetch : env.fetched = .ok att)
    (htx : txh ≠ "")
    (hf1 : att.agentId ≠ "") (hf2 : att.agentAddress ≠ "") (hf3 : att.ownerId ≠ "")
    (hmism : att.agentId ≠ toString env.keyInfo.idNum ∨
      att.ownerId ≠ toString cfg.ownerId) :
    ((setOwnership hdr sign cfg env (some txh) challenge).outcome
        = .error (agentIdMismatchMsg att.agentId env.keyInfo.idNum) ∨
     (setOwnership hdr sign cfg env (some txh) challenge).outcome
        = .error (ownerIdMismatchMsg att.ownerId cfg.ownerId)) ∧
    (setOwnership hdr sign cfg env (some txh) challenge).cfg.txDidAuthAttestation
      = cfg.txDidAuthAttestation ∧
    (setOwnership hdr sign cfg env (some txh) challenge).cfg.txOwnershipAttestationFromAgent
      = cfg.txOwnershipAttestationFromAgent ∧
    (setOwnership hdr sign cfg env (some txh) challenge).cfg.txOwnershipAttestationFromOwner
      = some txh := by
  simp only [setOwnership, hsome, hfetch, if_neg htx]
  rw [if_neg (by simp [hf1, hf2, hf3])]
  by_cases hag : att.agentId ≠ toString env.keyInfo.idNum
  · rw [if_pos hag]
    exact ⟨Or.inl rfl, rfl, rfl, rfl⟩
  · rcases hmism with hm | hm
    · exact absurd hm hag
    · rw [if_neg hag, if_pos hm]
      exact ⟨Or.inr rfl, rfl, rfl, rfl⟩

/-- Witness for `c2_amended` at the concrete mismatching attestation. -/
theorem c2_amended_witness :
    ((setOwnership ("hdrsegment") modelSignFn cfgWithTrackers setOwnEnvMismatch
        (some ("0xnew")) 5).outcome
        = .error (agentIdMismatchMsg ("999") 7) ∨
     (setOwnership ("hdrsegment") modelSignFn cfgWithTrackers setOwnEnvMismatch
        (some ("0xnew")) 5).outcome
        = .error (ownerIdMismatchMsg ("42") 42)) ∧
    (setOwnership ("hdrsegment") modelSignFn cfgWithTrackers setOwnEnvMismatch
        (some ("0xnew")) 5).cfg.txDidAuthAttestation
      = cfgWithTrackers.txDidAuthAttestation ∧
    (setOwnership ("hdrsegment") modelSignFn cfgWithTrackers setOwnEnvMismatch
        (some ("0xnew")) 5).cfg.txOwnershipAttestationFromAgent
      = cfgWithTrackers.txOwnershipAttestationFromAgent ∧
    (setOwnership ("hdrsegment") modelSignFn cfgWithTrackers setOwnEnvMismatch
        (some ("0xnew")) 5).cfg.txOwnershipAttestationFromOwner
      = some ("0xnew") :=
  c2_amended ("hdrsegment") modelSignFn cfgWithTrackers setOwnEnvMismatch
    ("0xnew") 5 ⟨("999"), ("0xAgentAddr"), ("42")⟩ sampleBC rfl rfl
    (by decide) (by decide) (by decide) (by decide) (Or.inl (by decide))

/- ------------------- C7: ownership-state lifecycle ----------------------- -/

theorem generateKeys_cases (hdr : String) (sign : String → String)
    (cfg : AgentConfig) (env : GenKeysEnv) (now challenge : Int) :
    ((generateKeys hdr sign cfg env now challenge).cfg = cfg ∧
     (generateKeys hdr sign cfg env now challenge).outcome.isOk = false) ∨
    ((generateKeys hdr sign cfg env now challenge).cfg.txDidAuthAttestation = none ∧
     (generateKeys hdr sign cfg env now challenge).cfg.txOwnershipAttestationFromAgent = none ∧
     (generateKeys hdr sign cfg env now challenge).cfg.txOwnershipAttestationFromOwner = none) := by
  simp only [generateKeys]
  split
  · exact Or.inl ⟨rfl, rfl⟩
  · split
    · exact Or.inl ⟨rfl, rfl⟩
    · split
      · exact Or.inl ⟨rfl, rfl⟩
      · split
        · exact Or.inl ⟨rfl, rfl⟩
        · exact Or.inr ⟨rfl, rfl, rfl⟩

theorem proveDid_preserves (hdr : String) (sign : String → String)
    (cfg : AgentConfig) (env : ProveDidEnv) (challenge : Int) :
    (proveDid hdr sign cfg env challenge).cfg.txOwnershipAttestationFromAgent
      = cfg.txOwnershipAttestationFromAgent ∧
    (proveDid hdr sign cfg env challenge).cfg.txOwnershipAttestationFromOwner
      = cfg.txOwnershipAttestationFromOwner ∧
    (cfg.txDidAuthAttestation.isSome = true →
      (proveDid hdr sign cfg env challenge).cfg.txDidAuthAttestation.isSome = true) := by
  simp only [proveDid]
  split
  · split
    · exact ⟨rfl, rfl, fun h => h⟩
    · split
      · exact ⟨rfl, rfl, fun h => h⟩
      · exact ⟨rfl, rfl, fun _ => rfl⟩
  · exact ⟨rfl, rfl, fun h => h⟩

theorem proveOwner_preserves (hdr : String) (sign : String → String)
    (cfg : AgentConfig) (env : ProveOwnerEnv) (challenge : Int) :
    (proveOwner hdr sign cfg env challenge).cfg.txDidAuthAttestation
      = cfg.txDidAuthAttestation ∧
    (proveOwner hdr sign cfg env challenge).cfg.txOwnershipAttestationFromOwner
      = cfg.txOwnershipAttestationFromOwner ∧
    (cfg.txOwnershipAttestationFromAgent.isSome = true →
      (proveOwner hdr sign cfg env challenge).cfg.txOwnershipAttestationFromAgent.isSome
        = true) := by
  simp only [proveOwner]
  split
  · exact ⟨rfl, rfl, fun h => h⟩
  · split
    · exact ⟨rfl, rfl, fun h => h⟩
    · split
      · exact ⟨rfl, rfl, fun h => h⟩
      · split
        · exact ⟨rfl, rfl, fun h => h⟩
        · exact ⟨rfl, rfl, fun _ => rfl⟩

theorem setOwnership_preserves (hdr : String) (sign : String → String)
    (cfg : AgentConfig) (env : SetOwnershipEnv) (arg : Option String)
    (challenge : Int) :
    (setOwnership hdr sign cfg env arg challenge).cfg.txDidAuthAttestation
      = cfg.txDidAuthAttestation ∧
    (setOwnership hdr sign cfg env arg challenge).cfg.txOwnershipAttestationFromAgent
      = cfg.txOwnershipAttestationFromAgent ∧
    (cfg.txOwnershipAttestationFromOwner.isSome = true →
      (setOwnership hdr sign cfg env arg challenge).cfg.txOwnershipAttestationFromOwner.isSome
        = true) := by
  simp only [setOwnership]
  split
  · split
    · exact ⟨rfl, rfl, fun h => h⟩
    · split
      · exact ⟨rfl, rfl, fun h => h⟩
      · split
        · exact ⟨rfl, rfl, fun _ => rfl⟩
        · split
          · exact ⟨rfl, rfl, fun _ => rfl⟩
          · split
            · exact ⟨rfl, rfl, fun _ => rfl⟩
            · exact ⟨rfl, rfl, fun _ => rfl⟩
  · exact ⟨rfl, rfl, fun h => h⟩

theorem proveReputation_preserves (hdr : String) (sign : String → String)
    (cfg : AgentConfig) (env : ProveRepEnv) (challenge : Int) :
    (proveReputation hdr sign cfg env challenge).cfg = cfg := by
  simp only [proveReputation]
  split
  · rfl
  · split
    · rfl
    · rfl

/-- C7 counterexample: `generateKeys` with an existing key (so no fresh key
pair is generated, `keyCreated = false`) still resets all three tracker
fields from set to absent, contradicting "never cleared ... except the
key-generation operation when it generates a fresh key pair". -/
theorem c7_counterexample :
    (generateKeys ("hdrsegment") modelSignFn cfgWithTrackers genKeysEnvReuse
        1000 5).keyCreated = false ∧
    cfgWithTrackers.txDidAuthAttestation = some ("0xa") ∧
    cfgWithTrackers.txOwnershipAttestationFromAgent = some ("0xb") ∧
    cfgWithTrackers.txOwnershipAttestationFromOwner = some ("0xold") ∧
    (generateKeys ("hdrsegment") modelSignFn cfgWithTrackers genKeysEnvReuse
        1000 5).cfg.txDidAuthAttestation = none ∧
    (generateKeys ("hdrsegment") modelSignFn cfgWithTrackers genKeysEnvReuse
        1000 5).cfg.txOwnershipAttestationFromAgent = none ∧
    (generateKeys ("hdrsegment") modelSignFn cfgWithTrackers genKeysEnvReuse
        1000 5).cfg.txOwnershipAttestationFromOwner = none :=
  ⟨rfl, rfl, rfl, rfl, rfl, rfl, rfl⟩

/-- C7 (amended): the three tracker fields are set upon successful
confirmation of their operations, no operation other than key generation ever
clears them, and every key-generation call that reaches its key-resolution
step resets all three to absent, whether it creates a fresh key pair or
reuses an existing key. -/
theorem c7_amended :
    (∀ hdr sign cfg env now challenge,
      (generateKeys hdr sign cfg env now challenge).outcome.isOk = true →
        (generateKeys hdr sign cfg env now challenge).cfg.txDidAuthAttestation = none ∧
        (generateKeys hdr sign cfg env now challenge).cfg.txOwnershipAttestationFromAgent = none ∧
        (generateKeys hdr sign cfg env now challenge).cfg.txOwnershipAttestationFromOwner = none) ∧
    (∀ hdr sign cfg env challenge,
      (proveDid hdr sign cfg env challenge).cfg.txOwnershipAttestationFromAgent
        = cfg.txOwnershipAttestationFromAgent ∧
      (proveDid hdr sign cfg env challenge).cfg.txOwnershipAttestationFromOwner
        = cfg.txOwnershipAttestationFromOwner ∧
      (cfg.txDidAuthAttestation.isSome = true →
        (proveDid hdr sign cfg env challenge).cfg.txDidAuthAttestation.isSome = true)) ∧
    (∀ hdr sign cfg env challenge,
      (proveOwner hdr sign cfg env challenge).cfg.txDidAuthAttestation
        = cfg.txDidAuthAttestation ∧
      (proveOwner hdr sign cfg env challenge).cfg.txOwnershipAttestationFromOwner
        = cfg.txOwnershipAttestationFromOwner ∧
      (cfg.txOwnershipAttestationFromAgent.isSome = true →
        (proveOwner hdr sign cfg env challenge).cfg.txOwnershipAttestationFromAgent.isSome
          = true)) ∧
    (∀ hdr sign cfg env arg challenge,
      (setOwnership hdr sign cfg env arg challenge).cfg.txDidAuthAttestation
        = cfg.txDidAuthAttestation ∧
      (setOwnership hdr sign cfg env arg challenge).cfg.txOwnershipAttestationFromAgent
        = cfg.txOwnershipAttestationFromAgent ∧
      (cfg.txOwnershipAttestationFromOwner.isSome = true →
        (setOwnership hdr sign cfg env arg challenge).cfg.txOwnershipAttestationFromOwner.isSome
          = true)) ∧
    (∀ hdr sign cfg env challenge,
      (proveReputation hdr sign cfg env challenge).cfg = cfg) ∧
    (∀ (hdr : String) (sign : String → String) (cfg : AgentConfig)
        (env : ProveDidEnv) (challenge : Int) (txh : String),
      cfg.blockchainConfig.isSome → rpcUrlOf cfg ≠ "" →
      env.keyInfo.ethAddress ≠ "" →
      cfg.txDidAuthAttestation = none → env.balance1 ≠ 0 →
      env.sendDidAuth = .ok txh →
        (proveDid hdr sign cfg env challenge).cfg.txDidAuthAttestation = some txh) := by
  refine ⟨?_, ?_, ?_, ?_, ?_, ?_⟩
  · intro hdr sign cfg env now ch hok
    rcases generateKeys_cases hdr sign cfg env now ch with ⟨_, hbad⟩ | hcl
    · rw [hok] at hbad
      cases hbad
    · exact hcl
  · intro hdr sign cfg env ch
    exact proveDid_preserves hdr sign cfg env ch
  · intro hdr sign cfg env ch
    exact proveOwner_preserves hdr sign cfg env ch
  · intro hdr sign cfg env arg ch
    exact setOwnership_preserves hdr sign cfg env arg ch
  · intro hdr sign cfg env ch
    exact proveReputation_preserves hdr sign cfg env ch
  · intro hdr sign cfg env ch txh hbc hrpc heth hnone hbal hsend
    unfold proveDid
    rw [if_pos ⟨by simpa using hbc, hrpc, heth, hnone⟩]
    rw [if_neg hbal]
    simp only [hsend]

/-- Witness for `c7_amended` at concrete configurations and oracle
environments. -/
theorem c7_amended_witness :
    ((generateKeys ("hdrsegment") modelSignFn cfgWithTrackers genKeysEnvReuse
        1000 5).cfg.txDidAuthAttestation = none ∧
     (generateKeys ("hdrsegment") modelSignFn cfgWithTrackers genKeysEnvReuse
        1000 5).cfg.txOwnershipAttestationFromAgent = none ∧
     (generateKeys ("hdrsegment") modelSignFn cfgWithTrackers genKeysEnvReuse
        1000 5).cfg.txOwnershipAttestationFromOwner = none) ∧
    ((proveDid ("hdrsegment") modelSignFn cfgWithTrackers proveDidEnvOk
        5).cfg.txOwnershipAttestationFromAgent
        = cfgWithTrackers.txOwnershipAttestationFromAgent ∧
     (proveDid ("hdrsegment") modelSignFn cfgWithTrackers proveDidEnvOk
        5).cfg.txOwnershipAttestationFromOwner
        = cfgWithTrackers.txOwnershipAttestationFromOwner ∧
     (proveDid ("hdrsegment") modelSignFn cfgWithTrackers proveDidEnvOk
        5).cfg.txDidAuthAttestation.isSome = true) ∧
    ((proveOwner ("hdrsegment") modelSignFn cfgWithTrackers proveOwnerEnvOk
        5).cfg.txDidAuthAttestation = cfgWithTrackers.txDidAuthAttestation ∧
     (proveOwner ("hdrsegment") modelSignFn cfgWithTrackers proveOwnerEnvOk
        5).cfg.txOwnershipAttestationFromOwner
        = cfgWithTrackers.txOwnershipAttestationFromOwner ∧
     (proveOwner ("hdrsegment") modelSignFn cfgWithTrackers proveOwnerEnvOk
        5).cfg.txOwnershipAttestationFromAgent.isSome = true) ∧
    ((setOwnership ("hdrsegment") modelSignFn cfgWithTrackers setOwnEnvMismatch
        (some ("0xnew")) 5).cfg.txDidAuthAttestation
        = cfgWithTrackers.txDidAuthAttestation ∧
     (setOwnership ("hdrsegment") modelSignFn cfgWithTrackers setOwnEnvMismatch
        (some ("0xnew")) 5).cfg.txOwnershipAttestationFromAgent
        = cfgWithTrackers.txOwnershipAttestationFromAgent ∧
     (setOwnership ("hdrsegment") modelSignFn cfgWithTrackers setOwnEnvMismatch
        (some ("0xnew")) 5).cfg.txOwnershipAttestationFromOwner.isSome = true) ∧
    ((proveReputation ("hdrsegment") modelSignFn cfgWithTrackers proveRepEnvOk
        5).cfg = cfgWithTrackers) ∧
    ((proveDid ("hdrsegment") modelSignFn cfgNoDid proveDidEnvOk
        5).cfg.txDidAuthAttestation = some ("0xdidtx")) :=
  ⟨c7_amended.1 ("hdrsegment") modelSignFn cfgWithTrackers genKeysEnvReuse 1000 5 rfl,
   ⟨(c7_amended.2.1 ("hdrsegment") modelSignFn cfgWithTrackers proveDidEnvOk 5).1,
    (c7_amended.2.1 ("hdrsegment") modelSignFn cfgWithTrackers proveDidEnvOk 5).2.1,
    (c7_amended.2.1 ("hdrsegment") modelSignFn cfgWithTrackers proveDidEnvOk 5).2.2 rfl⟩,
   ⟨(c7_amended.2.2.1 ("hdrsegment") modelSignFn cfgWithTrackers proveOwnerEnvOk 5).1,
    (c7_amended.2.2.1 ("hdrsegment") modelSignFn cfgWithTrackers proveOwnerEnvOk 5).2.1,
    (c7_amended.2.2.1 ("hdrsegment") modelSignFn cfgWithTrackers proveOwnerEnvOk 5).2.2 rfl⟩,
   ⟨(c7_amended.2.2.2.1 ("hdrsegment") modelSignFn cfgWithTrackers setOwnEnvMismatch
        (some ("0xnew")) 5).1,
    (c7_amended.2.2.2.1 ("hdrsegment") modelSignFn cfgWithTrackers setOwnEnvMismatch
        (some ("0xnew")) 5).2.1,
    (c7_amended.2.2.2.1 ("hdrsegment") modelSignFn cfgWithTrackers setOwnEnvMismatch
        (some ("0xnew")) 5).2.2 rfl⟩,
   c7_amended.2.2.2.2.1 ("hdrsegment") modelSignFn cfgWithTrackers proveRepEnvOk 5,
   c7_amended.2.2.2.2.2 ("hdrsegment") modelSignFn cfgNoDid proveDidEnvOk 5 ("0xdidtx")
     (by decide) (by decide) (by decide) rfl (by decide) rfl⟩

/- ------------------- C8: gas-estimation fallback ------------------------- -/

/-- C8: when `estimateGas` throws, `sendTransaction` sets the request's gas
limit to the fixed 10,000,000 constant and still submits; the outcome is
fully determined by the wallet receipt, so a gas-estimation failure is never
propagated to the caller. -/
theorem c8_gas_fallback (e : String) (receipt : Option MReceipt)
    (request : MTxRequest) :
    (sendTransaction (.error e) receipt request).request.gasLimit
      = some maxGasLimit ∧
    maxGasLimit = 10000000 ∧
    (sendTransaction (.error e) receipt request).sendCalled = true ∧
    (sendTransaction (.error e) receipt request).outcome
      = (match receipt with
         | none => .error ("No transaction created")
         | some r => .ok (r.hash, r)) := by
  cases receipt with
  | none => exact ⟨rfl, rfl, rfl, rfl⟩
  | some r => exact ⟨rfl, rfl, rfl, rfl⟩

/- ------------------- C6: registry authentication ------------------------- -/

/-- C6: the registry authentication state machine. A nonzero mapping that
differs from the expected id fails with the identity-mismatch error and
submits nothing; a matching nonzero mapping is returned without submitting; a
zero mapping first requires the "ethIdentity" method (failing otherwise
without submitting), then submits the proof `abiEncode(uint256, agentId)`,
re-reads the mapping, fails if it is still zero and otherwise returns it. -/
theorem c6_registry_auth (encodeCall : MAuthResponse → String)
    (addr : String) (agentId : Nat) (agentAddress : String) (env : AuthRegEnv) :
    (env.idByAddress1 ≠ 0 → env.idByAddress1 ≠ agentId →
      (authenticateToAttestationRegistry encodeCall addr agentId agentAddress env).outcome
        = .error (idMismatchMsg env.idByAddress1 agentId) ∧
      (authenticateToAttestationRegistry encodeCall addr agentId agentAddress env).submitted
        = none) ∧
    (env.idByAddress1 ≠ 0 → env.idByAddress1 = agentId →
      (authenticateToAttestationRegistry encodeCall addr agentId agentAddress env).outcome
        = .ok env.idByAddress1 ∧
      (authenticateToAttestationRegistry encodeCall addr agentId agentAddress env).submitted
        = none) ∧
    (env.idByAddress1 = 0 → env.authMethodKnown = .ok false →
      (authenticateToAttestationRegistry encodeCall addr agentId agentAddress env).outcome
        = .error ("Could not authenticate: ethIdentity auth method not found") ∧
      (authenticateToAttestationRegistry encodeCall addr agentId agentAddress env).submitted
        = none) ∧
    (env.idByAddress1 = 0 → env.authMethodKnown = .ok true →
      (authenticateToAttestationRegistry encodeCall addr agentId agentAddress env).submitted
        = some ⟨("ethIdentity"), abiEncodeUint256 agentId⟩ ∧
      (∀ r, env.receipt = some r → env.idByAddress2 = 0 →
        (authenticateToAttestationRegistry encodeCall addr agentId agentAddress env).outcome
          = .error ("Could not authenticate: Authentication failed - user ID is still 0 after authentication")) ∧
      (∀ r, env.receipt = some r → env.idByAddress2 ≠ 0 →
        (authenticateToAttestationRegistry encodeCall addr agentId agentAddress env).outcome
          = .ok env.idByAddress2)) := by
  refine ⟨?_, ?_, ?_, ?_⟩
  · intro h1 h2
    unfold authenticateToAttestationRegistry
    rw [if_neg h1, if_pos h2]
    exact ⟨rfl, rfl⟩
  · intro h1 h2
    unfold authenticateToAttestationRegistry
    rw [if_neg h1, if_neg (by simp [h2])]
    exact ⟨rfl, rfl⟩
  · intro h1 h2
    unfold authenticateToAttestationRegistry
    rw [if_pos h1]
    simp only [h2]
    exact ⟨trivial, trivial⟩
  · intro h1 h2
    unfold authenticateToAttestationRegistry
    rw [if_pos h1]
    simp only [h2]
    refine ⟨?_, ?_, ?_⟩
    · cases hr : env.receipt with
      | none => simp only [sendTransaction, hr]
      | some r =>
        simp only [sendTransaction, hr]
        split
        · rfl
        · rfl
    · intro r hr hz
      simp only [sendTransaction, hr]
      rw [if_pos hz]
    · intro r hr hz
      simp only [sendTransaction, hr]
      rw [if_neg hz]

/-- Witness for `c6_registry_auth` on all four branches of the state
machine, at concrete registry oracle environments. -/
theorem c6_registry_auth_witness :
    ((authenticateToAttestationRegistry sampleEncodeCall ("0xAV") 7 ("0xAgentAddr")
        authEnvMismatch).outcome = .error (idMismatchMsg 9 7) ∧
     (authenticateToAttestationRegistry sampleEncodeCall ("0xAV") 7 ("0xAgentAddr")
        authEnvMismatch).submitted = none) ∧
    ((authenticateToAttestationRegistry sampleEncodeCall ("0xAV") 7 ("0xAgentAddr")
        authEnvMatch).outcome = .ok 7 ∧
     (authenticateToAttestationRegistry sampleEncodeCall ("0xAV") 7 ("0xAgentAddr")
        authEnvMatch).submitted = none) ∧
    ((authenticateToAttestationRegistry sampleEncodeCall ("0xAV") 7 ("0xAgentAddr")
        authEnvNoMethod).outcome
        = .error ("Could not authenticate: ethIdentity auth method not found") ∧
     (authenticateToAttestationRegistry sampleEncodeCall ("0xAV") 7 ("0xAgentAddr")
        authEnvNoMethod).submitted = none) ∧
    ((authenticateToAttestationRegistry sampleEncodeCall ("0xAV") 7 ("0xAgentAddr")
        authEnvZeroOk).submitted = some ⟨("ethIdentity"), abiEncodeUint256 7⟩ ∧
     (authenticateToAttestationRegistry sampleEncodeCall ("0xAV") 7 ("0xAgentAddr")
        authEnvZeroOk).outcome = .ok 7) ∧
    ((authenticateToAttestationRegistry sampleEncodeCall ("0xAV") 7 ("0xAgentAddr")
        authEnvStillZero).outcome
        = .error ("Could not authenticate: Authentication failed - user ID is still 0 after authentication")) :=
  ⟨(c6_registry_auth sampleEncodeCall ("0xAV") 7 ("0xAgentAddr") authEnvMismatch).1
      (by decide) (by decide),
   (c6_registry_auth sampleEncodeCall ("0xAV") 7 ("0xAgentAddr") authEnvMatch).2.1
      (by decide) rfl,
   (c6_registry_auth sampleEncodeCall ("0xAV") 7 ("0xAgentAddr") authEnvNoMethod).2.2.1
      rfl rfl,
   ⟨((c6_registry_auth sampleEncodeCall ("0xAV") 7 ("0xAgentAddr") authEnvZeroOk).2.2.2
      rfl rfl).1,
    ((c6_registry_auth sampleEncodeCall ("0xAV") 7 ("0xAgentAddr") authEnvZeroOk).2.2.2
      rfl rfl).2.2 sampleReceipt rfl (by decide)⟩,
   ((c6_registry_auth sampleEncodeCall ("0xAV") 7 ("0xAgentAddr") authEnvStillZero).2.2.2
      rfl rfl).2.1 sampleReceipt rfl rfl⟩

/-- Witness for `c8_gas_fallback` at a concrete failing estimate. -/
theorem c8_gas_fallback_witness :
    (sendTransaction (.error ("rpc down")) (some sampleReceipt)
        ⟨("0xAV"), ("0xdata"), none⟩).request.gasLimit = some maxGasLimit ∧
    maxGasLimit = 10000000 ∧
    (sendTransaction (.error ("rpc down")) (some sampleReceipt)
        ⟨("0xAV"), ("0xdata"), none⟩).sendCalled = true ∧
    (sendTransaction (.error ("rpc down")) (some sampleReceipt)
        ⟨("0xAV"), ("0xdata"), none⟩).outcome
      = .ok (sampleReceipt.hash, sampleReceipt) :=
  c8_gas_fallback ("rpc down") (some sampleReceipt) ⟨("0xAV"), ("0xdata"), none⟩
